import Mathlib

/-!
# Verification of the ocf_datapipes alignment / loading layer

Shallow embedding of the time-alignment and loading code of the
`ocf_datapipes` repository, together with proofs of the specification
claims about it.

Embedded source files:
* `ocf_datapipes/utils/consts/data_vars.py` — normalization statistics
  tables and the `NWPStatDict` lookup wrapper;
* `ocf_datapipes/select/select_pv_systems_on_capacity.py` — the
  capacity-based PV-system filter stage;
* `ocf_datapipes/load/nwp/gfs.py` — `open_gfs`, the GFS loader with its
  step-0 interpolation and hourly resample-and-pad of both time axes;
* `ocf_datapipes/training/metnet_national.py` — the national MetNet
  pipeline builder, embedded as a function from a configuration to an
  explicit datapipe expression tree.

Timestamps are modelled as whole hours (`Nat`): GFS issuance times and
lead times are hour-aligned, and the `"60T"` resampling grid of the
source is then exactly the integer range between the first and last
coordinate.  Array cell values are `Option ℚ` (`none` plays the role of
NaN, produced by `xarray.interp` outside the coordinate range).
-/

namespace OcfDatapipes

/-! ## Statistics tables (`ocf_datapipes/utils/consts/data_vars.py`)

The Python module builds plain `dict`s of per-channel statistics and
converts them to labelled arrays keyed by a `channel` coordinate; we
keep them as association lists from channel name to the (exact decimal)
value.  The float32 cast performed by `_to_data_array` is not modelled:
the claims are about which entries exist and which stored value is
returned, not about rounding. -/

def UKV_STD : List (String × ℚ) :=
  [("cdcb", 2126.99350113), ("lcc", 39.33210726), ("mcc", 41.91144559),
   ("hcc", 38.07184418), ("sde", 0.1029753), ("hcct", 18382.63958991),
   ("dswrf", 190.47216887), ("dlwrf", 39.45988077), ("h", 1075.77812282),
   ("t", 4.38818501), ("r", 11.45012499), ("dpt", 4.57250482),
   ("vis", 21578.97975625), ("si10", 3.94718813), ("wdir10", 94.08407495),
   ("prmsl", 1252.71790539), ("prate", 0.00021497)]

def UKV_MEAN : List (String × ℚ) :=
  [("cdcb", 1412.26599062), ("lcc", 50.08362643), ("mcc", 40.88984494),
   ("hcc", 29.11949682), ("sde", 0.00289545), ("hcct", -18345.97478167),
   ("dswrf", 111.28265039), ("dlwrf", 325.03130139), ("h", 2096.51991356),
   ("t", 283.64913206), ("r", 81.79229501), ("dpt", 280.54379901),
   ("vis", 32262.03285118), ("si10", 6.88348448), ("wdir10", 199.41891636),
   ("prmsl", 101321.61574029), ("prate", 3.45793433e-05)]

def UKV_VARIABLE_NAMES : List String := UKV_MEAN.map Prod.fst

def GFS_STD : List (String × ℚ) :=
  [("t", 5.017000766747606), ("dswrf", 233.1834250473355),
   ("prate", 0.00021690701537950742), ("dlwrf", 46.571),
   ("u", 4.165), ("v", 4.123)]

def GFS_MEAN : List (String × ℚ) :=
  [("t", 285.7799539185846), ("dswrf", 294.6696933986283),
   ("prate", 3.6078121378638696e-05), ("dlwrf", 319),
   ("u", 0.552), ("v", -0.477)]

def GFS_VARIABLE_NAMES : List String := GFS_MEAN.map Prod.fst

def NWP_PROVIDERS : List String := ["ukv", "gfs", "icon-eu", "icon-global", "ecmwf"]

/-- The two errors `NWPStatDict.__getitem__` can raise: a `KeyError`
carrying the "not yet available" message for a known provider, and a
plain `KeyError` carrying the key itself. -/
inductive NWPKeyError where
  | notYetAvailable (msg : String)
  | plain (key : String)
  deriving DecidableEq, Repr

/-- `NWPStatDict.__getitem__`: return the stored entry when the key is
present; otherwise raise the "not yet available" `KeyError` when the key
is a known NWP provider, and a plain `KeyError` otherwise. -/
def nwpStatGet {α : Type} (entries : List (String × α)) (key : String) :
    Except NWPKeyError α :=
  match entries.lookup key with
  | some v => .ok v
  | none =>
    if key ∈ NWP_PROVIDERS then
      .error (.notYetAvailable ("Values for " ++ key ++ " not yet available in ocf-datapipes"))
    else
      .error (.plain key)

/-- `NWP_VARIABLE_NAMES = NWPStatDict(ukv=..., gfs=...)`. -/
def NWP_VARIABLE_NAMES : List (String × List String) :=
  [("ukv", UKV_VARIABLE_NAMES), ("gfs", GFS_VARIABLE_NAMES)]

/-- `NWP_STDS = NWPStatDict(ukv=UKV_STD, gfs=GFS_STD)`. -/
def NWP_STDS : List (String × List (String × ℚ)) :=
  [("ukv", UKV_STD), ("gfs", GFS_STD)]

/-- `NWP_MEANS = NWPStatDict(ukv=UKV_MEAN, gfs=GFS_MEAN)`. -/
def NWP_MEANS : List (String × List (String × ℚ)) :=
  [("ukv", UKV_MEAN), ("gfs", GFS_MEAN)]

/-! ## `SelectPVSystemsOnCapacityIterDataPipe`
(`ocf_datapipes/select/select_pv_systems_on_capacity.py`)

Its `__iter__` loops over the source datapipe and yields each element
back unchanged; the capacity bounds stored by `__init__` are never read
(the drop step only exists as a comment).  `np.inf`, the Python default
for the upper bound, has no counterpart in `ℚ`, but the bounds are
arbitrary and unused, so the claims quantify over all rational bounds. -/

def selectPVSystemsOnCapacity {α : Type} (minCapacityWatts maxCapacityWatts : ℚ) :
    List α → List α
  | [] => []
  | x :: xs => x :: selectPVSystemsOnCapacity minCapacityWatts maxCapacityWatts xs

/-! ## `open_gfs` (`ocf_datapipes/load/nwp/gfs.py`)

The loader stacks five channels, transposes and renames dimensions
(lines 55–61) — pure bookkeeping that does not touch the two time axes —
and then manipulates the time grid (lines 64–68):

* `nwp.interp(step=[pd.Timedelta(hours=0)])`: query the dataset at lead
  time 0 by `xarray.interp` (linear interpolation, `NaN` outside the
  coordinate range, exact value at an existing coordinate);
* `xr.concat([nwp_step0, nwp], dim="step")`: prepend the lead-time-0
  layer to the step axis;
* `nwp.resample(init_time_utc="60T").pad()` and
  `nwp.resample(step="60T").pad()`: re-grid each axis to whole hours
  between its first and last coordinate and forward-fill every re-gridded
  point from the most recent prior coordinate.

The grid is modelled over the two time axes only: `initTimes` is the
sorted list of issuance hours, `steps` the sorted list of lead-time
hours, and `val` gives the cell value (per fixed channel and spatial
point); `none` plays the role of NaN. -/

structure GfsGrid where
  initTimes : List Nat
  steps : List Nat
  val : Nat → Nat → Option ℚ

/-- The most recent coordinate at or before `x`: the last entry of the
coordinate list that is `≤ x` (for a sorted axis, the maximal one).
This is the source coordinate pandas' `pad`/`ffill` copies from. -/
def lastLE (l : List Nat) (x : Nat) : Option Nat :=
  (l.filter (· ≤ x)).getLast?

/-- The earliest coordinate at or after `x`. -/
def firstGE (l : List Nat) (x : Nat) : Option Nat :=
  (l.filter (x ≤ ·)).head?

/-- `xarray.interp` at one query point `x` of a coordinate axis: the
exact value at an existing coordinate, linear interpolation between the
bracketing coordinates otherwise, and NaN (`none`) outside the
coordinate range (no extrapolation). -/
def interpAt (coords : List Nat) (col : Nat → Option ℚ) (x : Nat) : Option ℚ :=
  if x ∈ coords then col x
  else
    match lastLE coords x, firstGE coords x with
    | some a, some b =>
      match col a, col b with
      | some va, some vb =>
        some (va + (vb - va) * (((x : ℚ) - (a : ℚ)) / ((b : ℚ) - (a : ℚ))))
      | _, _ => none
    | _, _ => none

/-- The `"60T"` resampling grid of an hour-aligned axis: every whole
hour from the first to the last coordinate. -/
def hourlyRange (l : List Nat) : List Nat :=
  match l.head?, l.getLast? with
  | some a, some b => (List.range (b + 1 - a)).map (· + a)
  | _, _ => []

/-- Lines 65–66 of `gfs.py`: interpolate the dataset at lead time 0 and
concatenate the result in front of the step axis.  When `0` is already a
step coordinate the concatenation duplicates the coordinate; both copies
carry the same value (interpolation at an existing coordinate is exact),
so `val` — a function of the coordinate — is well defined. -/
def concatStep0 (g : GfsGrid) : GfsGrid :=
  { initTimes := g.initTimes
    steps := 0 :: g.steps
    val := fun t s =>
      if s = 0 then interpAt g.steps (g.val t) 0 else g.val t s }

/-- Line 67: `nwp.resample(init_time_utc="60T").pad()` — re-grid the
issuance axis to whole hours and forward-fill each issuance row from the
most recent prior issuance. -/
def resamplePadInit (g : GfsGrid) : GfsGrid :=
  { initTimes := hourlyRange g.initTimes
    steps := g.steps
    val := fun t s =>
      match lastLE g.initTimes t with
      | some t' => g.val t' s
      | none => none }

/-- Line 68: `nwp.resample(step="60T").pad()` — re-grid the lead-time
axis to whole hours and forward-fill each lead-time column from the most
recent prior lead time. -/
def resamplePadStep (g : GfsGrid) : GfsGrid :=
  { initTimes := g.initTimes
    steps := hourlyRange g.steps
    val := fun t s =>
      match lastLE g.steps s with
      | some s' => g.val t s'
      | none => none }

/-- The time-grid part of `open_gfs` (lines 63–68). -/
def open_gfs (g : GfsGrid) : GfsGrid :=
  resamplePadStep (resamplePadInit (concatStep0 g))

/-- Errors of the underlying array/storage library while opening a zarr
store (`xr.open_mfdataset` / `xr.load_dataset` with `engine="zarr"`). -/
inductive ZarrError where
  | storeNotFound (path : String)
  | corruptStore (path : String)
  deriving DecidableEq, Repr

/-- What a call to `open_gfs` can raise.  `underlying` is an error of
the array library propagated as-is; `sourceUnavailable` is the spec's
`SourceUnavailable` class, present here only so that its absence from
the code's behaviour can be stated. -/
inductive OpenError where
  | underlying (e : ZarrError)
  | sourceUnavailable (path : String)
  deriving DecidableEq, Repr

/-- `open_gfs(zarr_path)` (lines 37–72): open the store — via
`xr.open_mfdataset` when the path contains a `*` wildcard and
`xr.load_dataset` otherwise, both modelled by the same `stores` lookup —
and apply the time-grid transformation.  The Python function has no
`try`/`except`: an error raised by the array library propagates
unchanged. -/
def open_gfs_at (stores : String → Except ZarrError GfsGrid)
    (zarr_path : String) : Except OpenError GfsGrid :=
  let opened :=
    if zarr_path.contains '*' then stores zarr_path else stores zarr_path
  match opened with
  | .error e => .error (.underlying e)
  | .ok g => .ok (open_gfs g)

/-! ## The national MetNet pipeline
(`ocf_datapipes/training/metnet_national.py`)

`metnet_national_datapipe` lazily composes datapipe stages; no data is
read while it runs.  It is embedded as a function from a configuration
to an explicit expression tree of stages: each stage class applied by
the Python code is one constructor, holding its static arguments and
its upstream pipes.  `fork n i` is the `i`-th of the `n` children of a
`.fork(n)` call: all children replay the elements of the shared parent. -/

/-- Which statistics table a `normalize(mean=..., std=...)` call was
given: `NWP_MEAN`/`NWP_STD`, `SAT_MEAN_DA`/`SAT_STD_DA`, or
`SAT_MEAN["HRV"]`/`SAT_STD["HRV"]`. -/
inductive StatTable where
  | nwpMeanStd
  | satMeanStdDA
  | satMeanStdHRV
  deriving DecidableEq, Repr

/-- Datapipe expression trees: the stages `metnet_national_datapipe`
composes, with their configuration arguments (durations in minutes). -/
inductive DP where
  | openGSP (gsp_pv_power_zarr_path : String)
  | openNWP (zarr_path : String)
  | openSatellite (zarr_path : String)
  | openPVFromNetCDF (pv_power_filename pv_metadata_filename : String)
  | dropGSP (gsps_to_keep : List Nat) (source : DP)
  | locationPicker (source : DP)
  | normalizeFn (source : DP)
  | normalizeStats (stats : StatTable) (source : DP)
  | addT0IdxAndSamplePeriodDuration (samplePeriodMinutes historyMinutes : Int) (source : DP)
  | getContiguousTimePeriods (samplePeriodMinutes historyMinutes forecastMinutes : Int)
      (timeDim : String) (source : DP)
  | selectOverlappingTimeSlice (primary : DP) (secondaries : List DP)
  | selectTimePeriods (source timePeriods : DP)
  | selectT0Time (source : DP)
  | selectTimeSlice (source t0 : DP) (historyMinutes forecastMinutes samplePeriodMinutes : Int)
  | convertToNWPTargetTime (source t0 : DP)
      (samplePeriodMinutes historyMinutes forecastMinutes : Int)
  | createPVImage (source imagePipe : DP) (normalize : Bool) (maxNumPVSystems : Nat)
  | fork (arity index : Nat) (source : DP)
  | preProcessMetNet (modalities : List DP) (location : DP)
      (centerWidth centerHeight contextHeight contextWidth : Nat)
      (outputWidthPixels outputHeightPixels : Nat) (addSunFeatures : Bool)
  | header (n : Nat) (source : DP)
  | zip (left right : DP)

/-- `a` is a (reflexive, transitive) subterm of `b`: the stage `a` sits
upstream of — is applied before — the stage `b` in the pipeline graph. -/
inductive SubDP : DP → DP → Prop where
  | refl (a : DP) : SubDP a a
  | dropGSP {a s : DP} {ks : List Nat} : SubDP a s → SubDP a (.dropGSP ks s)
  | locationPicker {a s : DP} : SubDP a s → SubDP a (.locationPicker s)
  | normalizeFn {a s : DP} : SubDP a s → SubDP a (.normalizeFn s)
  | normalizeStats {a s : DP} {st : StatTable} :
      SubDP a s → SubDP a (.normalizeStats st s)
  | addT0 {a s : DP} {sp h : Int} :
      SubDP a s → SubDP a (.addT0IdxAndSamplePeriodDuration sp h s)
  | getContiguous {a s : DP} {sp h f : Int} {dim : String} :
      SubDP a s → SubDP a (.getContiguousTimePeriods sp h f dim s)
  | overlapPrimary {a p : DP} {ss : List DP} :
      SubDP a p → SubDP a (.selectOverlappingTimeSlice p ss)
  | overlapSecondary {a p s : DP} {ss : List DP} :
      s ∈ ss → SubDP a s → SubDP a (.selectOverlappingTimeSlice p ss)
  | selectTimePeriodsSrc {a s tp : DP} : SubDP a s → SubDP a (.selectTimePeriods s tp)
  | selectTimePeriodsPeriods {a s tp : DP} : SubDP a tp → SubDP a (.selectTimePeriods s tp)
  | selectT0 {a s : DP} : SubDP a s → SubDP a (.selectT0Time s)
  | sliceSrc {a s t0 : DP} {h f sp : Int} :
      SubDP a s → SubDP a (.selectTimeSlice s t0 h f sp)
  | sliceT0 {a s t0 : DP} {h f sp : Int} :
      SubDP a t0 → SubDP a (.selectTimeSlice s t0 h f sp)
  | convertSrc {a s t0 : DP} {sp h f : Int} :
      SubDP a s → SubDP a (.convertToNWPTargetTime s t0 sp h f)
  | convertT0 {a s t0 : DP} {sp h f : Int} :
      SubDP a t0 → SubDP a (.convertToNWPTargetTime s t0 sp h f)
  | pvImageSrc {a s im : DP} {n : Bool} {m : Nat} :
      SubDP a s → SubDP a (.createPVImage s im n m)
  | pvImageImage {a s im : DP} {n : Bool} {m : Nat} :
      SubDP a im → SubDP a (.createPVImage s im n m)
  | fork {a s : DP} {n i : Nat} : SubDP a s → SubDP a (.fork n i s)
  | metnetModality {a m loc : DP} {ms : List DP}
      {cw ch xh xw ow oh : Nat} {sun : Bool} :
      m ∈ ms → SubDP a m → SubDP a (.preProcessMetNet ms loc cw ch xh xw ow oh sun)
  | metnetLoc {a loc : DP} {ms : List DP} {cw ch xh xw ow oh : Nat} {sun : Bool} :
      SubDP a loc → SubDP a (.preProcessMetNet ms loc cw ch xh xw ow oh sun)
  | header {a s : DP} {n : Nat} : SubDP a s → SubDP a (.header n s)
  | zipL {a l r : DP} : SubDP a l → SubDP a (.zip l r)
  | zipR {a l r : DP} : SubDP a r → SubDP a (.zip l r)

/-- One entry of `pv_files_groups`. -/
structure PVFilesGroup where
  pv_filename : String
  pv_metadata_filename : String
  deriving DecidableEq, Repr

/-- `configuration.input_data.nwp`. -/
structure NWPConfig where
  nwp_zarr_path : String
  history_minutes : Int
  forecast_minutes : Int
  deriving DecidableEq, Repr

/-- `configuration.input_data.gsp`. -/
structure GSPConfig where
  gsp_zarr_path : String
  history_minutes : Int
  forecast_minutes : Int
  deriving DecidableEq, Repr

/-- `configuration.input_data.satellite`. -/
structure SatelliteConfig where
  satellite_zarr_path : String
  history_minutes : Int
  deriving DecidableEq, Repr

/-- `configuration.input_data.hrvsatellite`. -/
structure HRVSatelliteConfig where
  hrvsatellite_zarr_path : String
  history_minutes : Int
  deriving DecidableEq, Repr

/-- `configuration.input_data.pv`. -/
structure PVConfig where
  pv_files_groups : List PVFilesGroup
  history_minutes : Int
  deriving DecidableEq, Repr

/-- `configuration.input_data`. -/
structure InputData where
  nwp : NWPConfig
  gsp : GSPConfig
  satellite : SatelliteConfig
  hrvsatellite : HRVSatelliteConfig
  pv : PVConfig
  deriving DecidableEq, Repr

/-- `configuration.process`. -/
structure ProcessConfig where
  n_train_batches : Nat
  n_validation_batches : Nat
  deriving DecidableEq, Repr

/-- The configuration the pipeline builder consumes (the fields
`metnet_national_datapipe` reads). -/
structure Configuration where
  input_data : InputData
  process : ProcessConfig
  deriving DecidableEq, Repr

/-- Errors `metnet_national_datapipe` itself can raise while building
the (still lazy) pipeline: `pv_files_groups[0]` on an empty list
(line 76) and the unbound `image_datapipe` local when PV is active but
no image modality is (lines 256–268). -/
inductive BuildError where
  | indexError
  | nameError
  deriving DecidableEq, Repr

namespace MetNet

/-- Line 75. -/
def use_nwp (c : Configuration) : Bool := c.input_data.nwp.nwp_zarr_path != ""

/-- Line 76 (given the first PV files group). -/
def use_pv (g0 : PVFilesGroup) : Bool := g0.pv_filename != ""

/-- Line 77. -/
def use_sat (c : Configuration) : Bool := c.input_data.satellite.satellite_zarr_path != ""

/-- Line 78. -/
def use_hrv (c : Configuration) : Bool := c.input_data.hrvsatellite.hrvsatellite_zarr_path != ""

/-- Lines 82–86: open the GSP store and keep only GSP id 0. -/
def gspDropDP (c : Configuration) : DP :=
  .dropGSP [0] (.openGSP c.input_data.gsp.gsp_zarr_path)

/-- Line 88: the location pipe from the second fork of the GSP drop. -/
def locationDP (c : Configuration) : DP := .locationPicker (.fork 2 1 (gspDropDP c))

/-- Line 92: GSP normalization (divide by installed capacity),
applied directly to the opened GSP stream. -/
def gspNormDP (c : Configuration) : DP := .normalizeFn (.fork 2 0 (gspDropDP c))

/-- Lines 92–98: the shared GSP stream after normalize and
`add_t0_idx_and_sample_period_duration` (30-minute cadence). -/
def gspBaseDP (c : Configuration) : DP :=
  .addT0IdxAndSamplePeriodDuration 30 c.input_data.gsp.history_minutes (gspNormDP c)

/-- Lines 102–106: GSP contiguous time periods. -/
def gspPeriodsDP (c : Configuration) : DP :=
  .getContiguousTimePeriods 30 c.input_data.gsp.history_minutes
    c.input_data.gsp.forecast_minutes "time_utc" (.fork 3 1 (gspBaseDP c))

/-- Lines 113–118: the NWP stream after open and add-t0 (60-minute cadence). -/
def nwpBaseDP (c : Configuration) : DP :=
  .addT0IdxAndSamplePeriodDuration 60 c.input_data.nwp.history_minutes
    (.openNWP c.input_data.nwp.nwp_zarr_path)

/-- Lines 120–125: NWP contiguous time periods on the `init_time_utc` axis. -/
def nwpPeriodsDP (c : Configuration) : DP :=
  .getContiguousTimePeriods 60 c.input_data.nwp.history_minutes
    c.input_data.nwp.forecast_minutes "init_time_utc" (.fork 2 1 (nwpBaseDP c))

/-- Lines 130–134: the satellite stream after open and add-t0 (5-minute cadence). -/
def satBaseDP (c : Configuration) : DP :=
  .addT0IdxAndSamplePeriodDuration 5 c.input_data.satellite.history_minutes
    (.openSatellite c.input_data.satellite.satellite_zarr_path)

/-- Lines 136–140: satellite contiguous time periods. -/
def satPeriodsDP (c : Configuration) : DP :=
  .getContiguousTimePeriods 5 c.input_data.satellite.history_minutes 1 "time_utc"
    (.fork 2 1 (satBaseDP c))

/-- Lines 145–155: the HRV satellite stream after open and add-t0. -/
def hrvBaseDP (c : Configuration) : DP :=
  .addT0IdxAndSamplePeriodDuration 5 c.input_data.hrvsatellite.history_minutes
    (.openSatellite c.input_data.hrvsatellite.hrvsatellite_zarr_path)

/-- Lines 156–160: HRV satellite contiguous time periods. -/
def hrvPeriodsDP (c : Configuration) : DP :=
  .getContiguousTimePeriods 5 c.input_data.hrvsatellite.history_minutes 1 "time_utc"
    (.fork 2 1 (hrvBaseDP c))

/-- Lines 165–174: the PV stream after open and add-t0. -/
def pvBaseDP (c : Configuration) (g0 : PVFilesGroup) : DP :=
  .addT0IdxAndSamplePeriodDuration 5 c.input_data.pv.history_minutes
    (.fork 2 0 (.openPVFromNetCDF g0.pv_filename g0.pv_metadata_filename))

/-- Lines 176–180: PV contiguous time periods. -/
def pvPeriodsDP (c : Configuration) (g0 : PVFilesGroup) : DP :=
  .getContiguousTimePeriods 5 c.input_data.pv.history_minutes 1 "time_utc"
    (.fork 2 1 (pvBaseDP c g0))

/-- `secondary_datapipes` (lines 108–181): one contiguous-periods pipe
appended per active optional modality, in the fixed order NWP,
satellite, HRV, PV. -/
def secondaryDPs (c : Configuration) (g0 : PVFilesGroup) : List DP :=
  (if use_nwp c then [nwpPeriodsDP c] else []) ++
  (if use_sat c then [satPeriodsDP c] else []) ++
  (if use_hrv c then [hrvPeriodsDP c] else []) ++
  (if use_pv g0 then [pvPeriodsDP c g0] else [])

/-- Lines 185–187: joint-period intersection — GSP periods against all
active secondary periods. -/
def overlapDP (c : Configuration) (g0 : PVFilesGroup) : DP :=
  .selectOverlappingTimeSlice (gspPeriodsDP c) (secondaryDPs c g0)

/-- Line 198: restrict the GSP t0 stream to the joint periods. -/
def gspT0SelDP (c : Configuration) (g0 : PVFilesGroup) : DP :=
  .selectTimePeriods (.fork 3 2 (gspBaseDP c)) (.fork 5 0 (overlapDP c g0))

/-- Lines 202–208: the single `select_t0_time` stage; its output is
forked five ways, one per modality. -/
def t0DP (c : Configuration) (g0 : PVFilesGroup) : DP :=
  .selectT0Time (gspT0SelDP c g0)

/-- Lines 212–217: the GSP slice (history 0, forecast as configured,
30-minute sample period), fed by fork 0 of the t0 stage. -/
def gspSliceDP (c : Configuration) (g0 : PVFilesGroup) : DP :=
  .selectTimeSlice (.fork 3 0 (gspBaseDP c)) (.fork 5 0 (t0DP c g0))
    0 c.input_data.gsp.forecast_minutes 30

/-- Lines 222–226: the NWP slice (`convert_to_nwp_target_time`), fed by
fork 1 of the t0 stage. -/
def nwpSliceDP (c : Configuration) (g0 : PVFilesGroup) : DP :=
  .convertToNWPTargetTime (.fork 2 0 (nwpBaseDP c)) (.fork 5 1 (t0DP c g0))
    60 c.input_data.nwp.history_minutes c.input_data.nwp.forecast_minutes

/-- Line 227: NWP normalization, applied to the NWP slice. -/
def nwpNormDP (c : Configuration) (g0 : PVFilesGroup) : DP :=
  .normalizeStats .nwpMeanStd (nwpSliceDP c g0)

/-- Lines 232–236: the satellite slice, fed by fork 2 of the t0 stage. -/
def satSliceDP (c : Configuration) (g0 : PVFilesGroup) : DP :=
  .selectTimeSlice (.fork 2 0 (satBaseDP c)) (.fork 5 2 (t0DP c g0))
    c.input_data.satellite.history_minutes 0 5

/-- Line 237: satellite normalization, applied to the satellite slice. -/
def satNormDP (c : Configuration) (g0 : PVFilesGroup) : DP :=
  .normalizeStats .satMeanStdDA (satSliceDP c g0)

/-- Lines 242–249: the HRV slice, fed by fork 3 of the t0 stage. -/
def hrvSliceDP (c : Configuration) (g0 : PVFilesGroup) : DP :=
  .selectTimeSlice (.fork 2 0 (hrvBaseDP c)) (.fork 5 3 (t0DP c g0))
    c.input_data.hrvsatellite.history_minutes 0 5

/-- Line 250: HRV normalization, applied to the HRV slice. -/
def hrvNormDP (c : Configuration) (g0 : PVFilesGroup) : DP :=
  .normalizeStats .satMeanStdHRV (hrvSliceDP c g0)

/-- Lines 263–267: the PV slice, fed by fork 4 of the t0 stage. -/
def pvSliceDP (c : Configuration) (g0 : PVFilesGroup) : DP :=
  .selectTimeSlice (.fork 2 0 (pvBaseDP c g0)) (.fork 5 4 (t0DP c g0))
    c.input_data.pv.history_minutes 0 5

/-- Lines 256–257: when PV and satellite are both active, the satellite
modality becomes fork 0 of the normalized satellite pipe (fork 1 feeds
the PV image). -/
def satFinalDP (c : Configuration) (g0 : PVFilesGroup) : DP :=
  if use_pv g0 && use_sat c then .fork 2 0 (satNormDP c g0) else satNormDP c g0

/-- Lines 258–259. -/
def hrvFinalDP (c : Configuration) (g0 : PVFilesGroup) : DP :=
  if use_pv g0 && !use_sat c && use_hrv c then .fork 2 0 (hrvNormDP c g0)
  else hrvNormDP c g0

/-- Lines 260–261. -/
def nwpFinalDP (c : Configuration) (g0 : PVFilesGroup) : DP :=
  if use_pv g0 && !use_sat c && !use_hrv c && use_nwp c then .fork 2 0 (nwpNormDP c g0)
  else nwpNormDP c g0

/-- Lines 256–261: the image pipe handed to `create_pv_image` — the
`if`/`elif` chain leaves it unbound when no image modality is active. -/
def imageDP (c : Configuration) (g0 : PVFilesGroup) : Option DP :=
  if use_sat c then some (.fork 2 1 (satNormDP c g0))
  else if use_hrv c then some (.fork 2 1 (hrvNormDP c g0))
  else if use_nwp c then some (.fork 2 1 (nwpNormDP c g0))
  else none

/-- Line 268: `create_pv_image(image_datapipe, normalize=True,
max_num_pv_systems=100)` on the PV slice. -/
def pvImageDP (c : Configuration) (g0 : PVFilesGroup) (image : DP) : DP :=
  .createPVImage (pvSliceDP c g0) image true 100

/-- Lines 273–281: collect the active modalities, in the order NWP,
HRV, satellite, PV. -/
def modalitiesDP (c : Configuration) (g0 : PVFilesGroup) (pvModality : List DP) :
    List DP :=
  (if use_nwp c then [nwpFinalDP c g0] else []) ++
  (if use_hrv c then [hrvFinalDP c g0] else []) ++
  (if use_sat c then [satFinalDP c g0] else []) ++ pvModality

/-- Lines 283–299: combine the modalities through `PreProcessMetNet`,
cut to the batch budget for `train`/`val` mode, and zip with the GSP
slice as labels. -/
def assembleDP (c : Configuration) (g0 : PVFilesGroup) (pvModality : List DP)
    (mode : String) : DP :=
  let combined := DP.preProcessMetNet (modalitiesDP c g0 pvModality) (locationDP c)
    500000 1000000 10000000 10000000 256 256 true
  let combined :=
    if mode == "train" then DP.header c.process.n_train_batches combined
    else if mode == "val" then DP.header c.process.n_validation_batches combined
    else combined
  DP.zip combined (gspSliceDP c g0)

end MetNet

open MetNet in
/-- `metnet_national_datapipe(configuration_filename, mode)` (lines
57–299), as a function of the loaded configuration: evaluate the
modality flags (raising `IndexError` at line 76 when `pv_files_groups`
is empty), build every branch, and fail with `NameError` at line 268
when PV is active but no image modality is.  The result is the lazy
pipeline; no data has been read. -/
def metnet_national_datapipe (c : Configuration) (mode : String) :
    Except BuildError DP := do
  let g0 ← match c.input_data.pv.pv_files_groups.head? with
    | some g => Except.ok g
    | none => Except.error BuildError.indexError
  let pvModality ←
    if use_pv g0 then
      match imageDP c g0 with
      | some image => Except.ok [pvImageDP c g0 image]
      | none => Except.error BuildError.nameError
    else Except.ok []
  Except.ok (assembleDP c g0 pvModality mode)

/-- The t0 arguments of every slice-extraction stage
(`select_time_slice` / `convert_to_nwp_target_time`) occurring in a
pipeline tree. -/
def sliceT0Args : DP → List DP
  | .openGSP _ => []
  | .openNWP _ => []
  | .openSatellite _ => []
  | .openPVFromNetCDF _ _ => []
  | .dropGSP _ s => sliceT0Args s
  | .locationPicker s => sliceT0Args s
  | .normalizeFn s => sliceT0Args s
  | .normalizeStats _ s => sliceT0Args s
  | .addT0IdxAndSamplePeriodDuration _ _ s => sliceT0Args s
  | .getContiguousTimePeriods _ _ _ _ s => sliceT0Args s
  | .selectOverlappingTimeSlice p ss =>
      sliceT0Args p ++ (ss.attach.map (fun x => sliceT0Args x.1)).flatten
  | .selectTimePeriods s tp => sliceT0Args s ++ sliceT0Args tp
  | .selectT0Time s => sliceT0Args s
  | .selectTimeSlice s t0 _ _ _ => t0 :: (sliceT0Args s ++ sliceT0Args t0)
  | .convertToNWPTargetTime s t0 _ _ _ => t0 :: (sliceT0Args s ++ sliceT0Args t0)
  | .createPVImage s im _ _ => sliceT0Args s ++ sliceT0Args im
  | .fork _ _ s => sliceT0Args s
  | .preProcessMetNet ms loc _ _ _ _ _ _ _ =>
      (ms.attach.map (fun x => sliceT0Args x.1)).flatten ++ sliceT0Args loc
  | .header _ s => sliceT0Args s
  | .zip l r => sliceT0Args l ++ sliceT0Args r
decreasing_by
  all_goals try have := List.sizeOf_lt_of_mem x.2
  all_goals simp at *
  all_goals omega

/-- The first PV files group of `exampleConfig`. -/
def examplePVGroup : PVFilesGroup := ⟨"pv.netcdf", "pv_meta.csv"⟩

/-- A configuration with every modality active. -/
def exampleConfig : Configuration :=
  { input_data :=
      { nwp := ⟨"nwp.zarr", 60, 120⟩
        gsp := ⟨"gsp.zarr", 120, 480⟩
        satellite := ⟨"sat.zarr", 90⟩
        hrvsatellite := ⟨"hrv.zarr", 90⟩
        pv := ⟨[examplePVGroup], 60⟩ }
    process := ⟨11, 5⟩ }

/-- The pipeline built from `exampleConfig` in `train` mode: every
modality is active, so the PV image pipe is forked off the normalized
satellite pipe. -/
def exampleDP : DP :=
  MetNet.assembleDP exampleConfig examplePVGroup
    [MetNet.pvImageDP exampleConfig examplePVGroup
      (DP.fork 2 1 (MetNet.satNormDP exampleConfig examplePVGroup))] "train"

/-- Stage order of the national pipeline (C2, amended): for every
source, opening feeds the contiguous-period finder, the period streams
of all active sources feed the joint intersection, the intersection
feeds the single t0 selector, the t0 selector feeds each source's slice
extractor, and the per-source statistics normalization of NWP,
satellite and HRV is applied directly to the slice output (PV is
normalized inside `create_pv_image`, also after its slice) — while the
GSP stream alone is normalized immediately after opening, before its
period computation and before its slice extraction. -/
def StageOrderProp (c : Configuration) (g0 : PVFilesGroup) (p : DP) : Prop :=
  SubDP (MetNet.gspNormDP c) (MetNet.gspPeriodsDP c) ∧
  SubDP (MetNet.gspNormDP c) (MetNet.gspSliceDP c g0) ∧
  SubDP (MetNet.gspSliceDP c g0) p ∧
  SubDP (MetNet.gspPeriodsDP c) (MetNet.overlapDP c g0) ∧
  SubDP (MetNet.overlapDP c g0) (MetNet.t0DP c g0) ∧
  SubDP (MetNet.t0DP c g0) (MetNet.gspSliceDP c g0) ∧
  (MetNet.use_nwp c = true →
    SubDP (DP.openNWP c.input_data.nwp.nwp_zarr_path) (MetNet.nwpPeriodsDP c) ∧
    SubDP (MetNet.nwpPeriodsDP c) (MetNet.overlapDP c g0) ∧
    SubDP (MetNet.t0DP c g0) (MetNet.nwpSliceDP c g0) ∧
    MetNet.nwpNormDP c g0 = DP.normalizeStats .nwpMeanStd (MetNet.nwpSliceDP c g0) ∧
    SubDP (MetNet.nwpNormDP c g0) p) ∧
  (MetNet.use_sat c = true →
    SubDP (DP.openSatellite c.input_data.satellite.satellite_zarr_path)
      (MetNet.satPeriodsDP c) ∧
    SubDP (MetNet.satPeriodsDP c) (MetNet.overlapDP c g0) ∧
    SubDP (MetNet.t0DP c g0) (MetNet.satSliceDP c g0) ∧
    MetNet.satNormDP c g0 = DP.normalizeStats .satMeanStdDA (MetNet.satSliceDP c g0) ∧
    SubDP (MetNet.satNormDP c g0) p) ∧
  (MetNet.use_hrv c = true →
    SubDP (DP.openSatellite c.input_data.hrvsatellite.hrvsatellite_zarr_path)
      (MetNet.hrvPeriodsDP c) ∧
    SubDP (MetNet.hrvPeriodsDP c) (MetNet.overlapDP c g0) ∧
    SubDP (MetNet.t0DP c g0) (MetNet.hrvSliceDP c g0) ∧
    MetNet.hrvNormDP c g0 = DP.normalizeStats .satMeanStdHRV (MetNet.hrvSliceDP c g0) ∧
    SubDP (MetNet.hrvNormDP c g0) p) ∧
  (MetNet.use_pv g0 = true →
    SubDP (DP.openPVFromNetCDF g0.pv_filename g0.pv_metadata_filename)
      (MetNet.pvPeriodsDP c g0) ∧
    SubDP (MetNet.pvPeriodsDP c g0) (MetNet.overlapDP c g0) ∧
    SubDP (MetNet.t0DP c g0) (MetNet.pvSliceDP c g0) ∧
    SubDP (MetNet.pvSliceDP c g0) p)

/-- Single-anchor property (C3): every t0 argument of every
slice-extraction stage in the pipeline is one of the five forks of the
one `select_t0_time` stage, that stage occurs once (all consumers fork
the same node), and each active modality's slice stage — carrying its
fork of that node — occurs in the pipeline. -/
def SingleAnchorProp (c : Configuration) (g0 : PVFilesGroup) (p : DP) : Prop :=
  (∀ q ∈ sliceT0Args p, ∃ i, i < 5 ∧ q = DP.fork 5 i (MetNet.t0DP c g0)) ∧
  MetNet.t0DP c g0 = DP.selectT0Time (MetNet.gspT0SelDP c g0) ∧
  sliceT0Args (MetNet.gspSliceDP c g0) = [DP.fork 5 0 (MetNet.t0DP c g0)] ∧
  sliceT0Args (MetNet.nwpSliceDP c g0) = [DP.fork 5 1 (MetNet.t0DP c g0)] ∧
  sliceT0Args (MetNet.satSliceDP c g0) = [DP.fork 5 2 (MetNet.t0DP c g0)] ∧
  sliceT0Args (MetNet.hrvSliceDP c g0) = [DP.fork 5 3 (MetNet.t0DP c g0)] ∧
  sliceT0Args (MetNet.pvSliceDP c g0) = [DP.fork 5 4 (MetNet.t0DP c g0)] ∧
  SubDP (MetNet.gspSliceDP c g0) p ∧
  (MetNet.use_nwp c = true → SubDP (MetNet.nwpSliceDP c g0) p) ∧
  (MetNet.use_sat c = true → SubDP (MetNet.satSliceDP c g0) p) ∧
  (MetNet.use_hrv c = true → SubDP (MetNet.hrvSliceDP c g0) p) ∧
  (MetNet.use_pv g0 = true → SubDP (MetNet.pvSliceDP c g0) p)

/-- Active-source intersection property (C4): the joint-period
intersection stage occurs in the pipeline; its primary input is the GSP
period stream (GSP always contributes); each optional modality's period
stream is among the secondary inputs exactly when its configured data
path is a non-empty string; and nothing else is among the secondary
inputs. -/
def OverlapExactlyActive (c : Configuration) (g0 : PVFilesGroup) (p : DP) : Prop :=
  SubDP (MetNet.overlapDP c g0) p ∧
  MetNet.overlapDP c g0 =
    DP.selectOverlappingTimeSlice (MetNet.gspPeriodsDP c) (MetNet.secondaryDPs c g0) ∧
  (MetNet.nwpPeriodsDP c ∈ MetNet.secondaryDPs c g0 ↔
    c.input_data.nwp.nwp_zarr_path ≠ "") ∧
  (MetNet.satPeriodsDP c ∈ MetNet.secondaryDPs c g0 ↔
    c.input_data.satellite.satellite_zarr_path ≠ "") ∧
  (MetNet.hrvPeriodsDP c ∈ MetNet.secondaryDPs c g0 ↔
    c.input_data.hrvsatellite.hrvsatellite_zarr_path ≠ "") ∧
  (MetNet.pvPeriodsDP c g0 ∈ MetNet.secondaryDPs c g0 ↔ g0.pv_filename ≠ "") ∧
  (∀ d ∈ MetNet.secondaryDPs c g0,
    d = MetNet.nwpPeriodsDP c ∨ d = MetNet.satPeriodsDP c ∨
    d = MetNet.hrvPeriodsDP c ∨ d = MetNet.pvPeriodsDP c g0)

/-! ## Cadence validation (C6)

`metnet_national_datapipe` obtains its `Configuration` through
`OpenConfiguration`, and `xgnational_production_datapipe` through
`load_yaml_configuration`; both construct the configuration model of
`ocf_datapipes/config/model.py`, which is not among the provided source
files.  The validation below is therefore modelled from the spec. -/

/-- Modelled from the spec: "ConfigurationError (fatal, surfaced
immediately at construction): invalid Cadence Descriptor".  The
validation code lives in the configuration model, which is not under
the provided sources. -/
inductive ConfigurationError where
  | negativeDuration (sourceName : String)
  | nonMultipleDuration (sourceName : String)
  deriving DecidableEq, Repr

/-- Modelled from the spec: "Cadence Descriptor: {sample_period:
duration, history_duration: duration, forecast_duration: duration}",
in minutes. -/
structure CadenceDescriptor where
  sample_period_minutes : Int
  history_minutes : Int
  forecast_minutes : Int
  deriving DecidableEq, Repr

/-- Modelled from the spec: "reject negative or non-multiple durations
with a ConfigurationError". -/
def validateCadence (sourceName : String) (d : CadenceDescriptor) :
    Except ConfigurationError Unit :=
  if d.history_minutes < 0 ∨ d.forecast_minutes < 0 ∨ d.sample_period_minutes < 0 then
    .error (.negativeDuration sourceName)
  else if ¬ (d.sample_period_minutes ∣ d.history_minutes) ∨
      ¬ (d.sample_period_minutes ∣ d.forecast_minutes) then
    .error (.nonMultipleDuration sourceName)
  else .ok ()

/-- A cadence descriptor containing a negative duration or a
history/forecast duration that is not a whole multiple of the sample
period. -/
def InvalidCadence (d : CadenceDescriptor) : Prop :=
  d.history_minutes < 0 ∨ d.forecast_minutes < 0 ∨ d.sample_period_minutes < 0 ∨
  ¬ (d.sample_period_minutes ∣ d.history_minutes) ∨
  ¬ (d.sample_period_minutes ∣ d.forecast_minutes)

/-- The per-source cadence descriptors of the national pipeline: the
configured history/forecast minutes paired with the sample periods the
pipeline code uses (30-minute GSP, 60-minute NWP, 5-minute satellite,
HRV and PV; the optional sources have no configured forecast
duration). -/
def cadenceDescriptors (c : Configuration) : List (String × CadenceDescriptor) :=
  [("gsp", ⟨30, c.input_data.gsp.history_minutes, c.input_data.gsp.forecast_minutes⟩),
   ("nwp", ⟨60, c.input_data.nwp.history_minutes, c.input_data.nwp.forecast_minutes⟩),
   ("satellite", ⟨5, c.input_data.satellite.history_minutes, 0⟩),
   ("hrvsatellite", ⟨5, c.input_data.hrvsatellite.history_minutes, 0⟩),
   ("pv", ⟨5, c.input_data.pv.history_minutes, 0⟩)]

/-- Modelled from the spec: validate every source's cadence descriptor,
stopping at the first invalid one. -/
def validateConfiguration (c : Configuration) : Except ConfigurationError Unit :=
  (cadenceDescriptors c).forM (fun nd => validateCadence nd.1 nd.2)

/-- Modelled from the spec: eager validation at pipeline construction —
the configuration is validated before any pipeline branch is built, and
the built pipeline is lazy, so no data has been fetched when the
`ConfigurationError` surfaces. -/
def metnet_national_datapipe_validated (c : Configuration) (mode : String) :
    Except (ConfigurationError ⊕ BuildError) DP :=
  match validateConfiguration c with
  | .error e => .error (.inl e)
  | .ok _ =>
    match metnet_national_datapipe c mode with
    | .error e => .error (.inr e)
    | .ok p => .ok p

/-- A configuration with a negative GSP history duration. -/
def badConfig : Configuration :=
  { exampleConfig with
    input_data := { exampleConfig.input_data with gsp := ⟨"gsp.zarr", -30, 480⟩ } }

/-! ## Seeded anchor selection and slicing (C7)

The t0 selector the pipeline applies (`select_t0_time`) and its random
number source are not among the provided source files; the model below
follows the spec's anchor-selector contract. -/

/-- Modelled from the spec: a Joint Window — a range of jointly valid
anchor hours. -/
structure JointWindow where
  startHour : Nat
  endHour : Nat
  deriving DecidableEq, Repr

/-- The valid anchor steps of a window, in ascending order. -/
def windowAnchors (w : JointWindow) : List Nat :=
  (List.range (w.endHour + 1 - w.startHour)).map (· + w.startHour)

/-- All anchors across a window list, in window order. -/
def allAnchors (ws : List JointWindow) : List Nat :=
  (ws.map windowAnchors).flatten

/-- Modelled from the spec: the injected seeded generator behind
`random` anchor selection ("Must be reproducible under an injected
seed") — a linear congruential step. -/
def lcgNext (state : Nat) : Nat := (1103515245 * state + 12345) % 2147483648

/-- Modelled from the spec: `random` anchor selection — a window is
chosen with probability proportional to its duration in valid sample
steps and a step uniformly within it, here as a uniform draw over the
concatenated anchor steps of all windows; yields `none` (the
NoValidAnchor condition) when the windows are empty.  Returns the
advanced generator state. -/
def selectRandomAnchor (ws : List JointWindow) (state : Nat) : Option Nat × Nat :=
  let anchors := allAnchors ws
  let next := lcgNext state
  (anchors.get? (next % anchors.length), next)

/-- Modelled from the spec: the slice extractor's target timestamps —
`anchor - history_duration` through `anchor + forecast_duration`,
stepped by the sample period (minutes). -/
def sliceTargets (historyMinutes forecastMinutes samplePeriodMinutes anchorMinutes : Nat) :
    List Nat :=
  (List.range ((historyMinutes + forecastMinutes) / samplePeriodMinutes + 1)).map
    (fun k => anchorMinutes - historyMinutes + k * samplePeriodMinutes)

/-- One run of the alignment pipeline from a generator state: draw one
anchor per example, threading the generator state, and extract every
source's slice targets at that anchor (each cadence is history,
forecast and sample-period minutes). -/
def runAlignmentFrom (ws : List JointWindow) (cadences : List (Nat × Nat × Nat))
    (state : Nat) : Nat → List (Option Nat × List (List Nat))
  | 0 => []
  | n + 1 =>
    let drawn := selectRandomAnchor ws state
    let slices := match drawn.1 with
      | some a => cadences.map (fun cd => sliceTargets cd.1 cd.2.1 cd.2.2 (a * 60))
      | none => []
    (drawn.1, slices) :: runAlignmentFrom ws cadences drawn.2 n

/-- A full alignment run from the injected seed. -/
def runAlignment (seed : Nat) (ws : List JointWindow)
    (cadences : List (Nat × Nat × Nat)) (n : Nat) :
    List (Option Nat × List (List Nat)) :=
  runAlignmentFrom ws cadences seed n

/-! ## Theorems -/

theorem SubDP.trans {a b c : DP} (h1 : SubDP a b) (h2 : SubDP b c) : SubDP a c := by
  induction h2 with
  | refl => exact h1
  | dropGSP _ ih => exact .dropGSP ih
  | locationPicker _ ih => exact .locationPicker ih
  | normalizeFn _ ih => exact .normalizeFn ih
  | normalizeStats _ ih => exact .normalizeStats ih
  | addT0 _ ih => exact .addT0 ih
  | getContiguous _ ih => exact .getContiguous ih
  | overlapPrimary _ ih => exact .overlapPrimary ih
  | overlapSecondary hm _ ih => exact .overlapSecondary hm ih
  | selectTimePeriodsSrc _ ih => exact .selectTimePeriodsSrc ih
  | selectTimePeriodsPeriods _ ih => exact .selectTimePeriodsPeriods ih
  | selectT0 _ ih => exact .selectT0 ih
  | sliceSrc _ ih => exact .sliceSrc ih
  | sliceT0 _ ih => exact .sliceT0 ih
  | convertSrc _ ih => exact .convertSrc ih
  | convertT0 _ ih => exact .convertT0 ih
  | pvImageSrc _ ih => exact .pvImageSrc ih
  | pvImageImage _ ih => exact .pvImageImage ih
  | fork _ ih => exact .fork ih
  | metnetModality hm _ ih => exact .metnetModality hm ih
  | metnetLoc _ ih => exact .metnetLoc ih
  | header _ ih => exact .header ih
  | zipL _ ih => exact .zipL ih
  | zipR _ ih => exact .zipR ih

/-! ### Pipeline-tree helper lemmas -/

theorem mem_ite_nil {α : Type} {P : Prop} [Decidable P] {l : List α} {x : α} :
    (x ∈ if P then l else []) ↔ P ∧ x ∈ l := by
  split
  · simp [*]
  · simp [*]

theorem sliceT0Args_openGSP (s : String) : sliceT0Args (.openGSP s) = [] := by
  simp [sliceT0Args]

theorem sliceT0Args_openNWP (s : String) : sliceT0Args (.openNWP s) = [] := by
  simp [sliceT0Args]

theorem sliceT0Args_openSatellite (s : String) : sliceT0Args (.openSatellite s) = [] := by
  simp [sliceT0Args]

theorem sliceT0Args_openPVFromNetCDF (a b : String) :
    sliceT0Args (.openPVFromNetCDF a b) = [] := by
  simp [sliceT0Args]

theorem sliceT0Args_dropGSP (ks : List Nat) (s : DP) :
    sliceT0Args (.dropGSP ks s) = sliceT0Args s := by
  simp [sliceT0Args]

theorem sliceT0Args_locationPicker (s : DP) :
    sliceT0Args (.locationPicker s) = sliceT0Args s := by
  simp [sliceT0Args]

theorem sliceT0Args_normalizeFn (s : DP) :
    sliceT0Args (.normalizeFn s) = sliceT0Args s := by
  simp [sliceT0Args]

theorem sliceT0Args_normalizeStats (st : StatTable) (s : DP) :
    sliceT0Args (.normalizeStats st s) = sliceT0Args s := by
  simp [sliceT0Args]

theorem sliceT0Args_addT0 (sp h : Int) (s : DP) :
    sliceT0Args (.addT0IdxAndSamplePeriodDuration sp h s) = sliceT0Args s := by
  simp [sliceT0Args]

theorem sliceT0Args_getContiguous (sp h f : Int) (dim : String) (s : DP) :
    sliceT0Args (.getContiguousTimePeriods sp h f dim s) = sliceT0Args s := by
  simp [sliceT0Args]

theorem sliceT0Args_overlap (p : DP) (ss : List DP) :
    sliceT0Args (.selectOverlappingTimeSlice p ss) =
      sliceT0Args p ++ (ss.map sliceT0Args).flatten := by
  simp [sliceT0Args, List.attach_map_val]

theorem sliceT0Args_selectTimePeriods (s tp : DP) :
    sliceT0Args (.selectTimePeriods s tp) = sliceT0Args s ++ sliceT0Args tp := by
  simp [sliceT0Args]

theorem sliceT0Args_selectT0Time (s : DP) :
    sliceT0Args (.selectT0Time s) = sliceT0Args s := by
  simp [sliceT0Args]

theorem sliceT0Args_selectTimeSlice (s t0 : DP) (h f sp : Int) :
    sliceT0Args (.selectTimeSlice s t0 h f sp) =
      t0 :: (sliceT0Args s ++ sliceT0Args t0) := by
  simp [sliceT0Args]

theorem sliceT0Args_convert (s t0 : DP) (sp h f : Int) :
    sliceT0Args (.convertToNWPTargetTime s t0 sp h f) =
      t0 :: (sliceT0Args s ++ sliceT0Args t0) := by
  simp [sliceT0Args]

theorem sliceT0Args_createPVImage (s im : DP) (n : Bool) (m : Nat) :
    sliceT0Args (.createPVImage s im n m) = sliceT0Args s ++ sliceT0Args im := by
  simp [sliceT0Args]

theorem sliceT0Args_fork (n i : Nat) (s : DP) :
    sliceT0Args (.fork n i s) = sliceT0Args s := by
  simp [sliceT0Args]

theorem sliceT0Args_preProcessMetNet (ms : List DP) (loc : DP)
    (cw ch xh xw ow oh : Nat) (sun : Bool) :
    sliceT0Args (.preProcessMetNet ms loc cw ch xh xw ow oh sun) =
      (ms.map sliceT0Args).flatten ++ sliceT0Args loc := by
  simp [sliceT0Args, List.attach_map_val]

theorem sliceT0Args_header (n : Nat) (s : DP) :
    sliceT0Args (.header n s) = sliceT0Args s := by
  simp [sliceT0Args]

theorem sliceT0Args_zip (l r : DP) :
    sliceT0Args (.zip l r) = sliceT0Args l ++ sliceT0Args r := by
  simp [sliceT0Args]

theorem sliceT0Args_gspBase (c : Configuration) :
    sliceT0Args (MetNet.gspBaseDP c) = [] := by
  simp [MetNet.gspBaseDP, MetNet.gspNormDP, MetNet.gspDropDP, sliceT0Args_addT0,
    sliceT0Args_normalizeFn, sliceT0Args_fork, sliceT0Args_dropGSP, sliceT0Args_openGSP]

theorem sliceT0Args_nwpBase (c : Configuration) :
    sliceT0Args (MetNet.nwpBaseDP c) = [] := by
  simp [MetNet.nwpBaseDP, sliceT0Args_addT0, sliceT0Args_openNWP]

theorem sliceT0Args_satBase (c : Configuration) :
    sliceT0Args (MetNet.satBaseDP c) = [] := by
  simp [MetNet.satBaseDP, sliceT0Args_addT0, sliceT0Args_openSatellite]

theorem sliceT0Args_hrvBase (c : Configuration) :
    sliceT0Args (MetNet.hrvBaseDP c) = [] := by
  simp [MetNet.hrvBaseDP, sliceT0Args_addT0, sliceT0Args_openSatellite]

theorem sliceT0Args_pvBase (c : Configuration) (g0 : PVFilesGroup) :
    sliceT0Args (MetNet.pvBaseDP c g0) = [] := by
  simp [MetNet.pvBaseDP, sliceT0Args_addT0, sliceT0Args_fork, sliceT0Args_openPVFromNetCDF]

theorem sliceT0Args_secondary_nil (c : Configuration) (g0 : PVFilesGroup) :
    ∀ d ∈ MetNet.secondaryDPs c g0, sliceT0Args d = [] := by
  intro d hd
  unfold MetNet.secondaryDPs at hd
  simp only [List.mem_append, mem_ite_nil, List.mem_singleton] at hd
  rcases hd with ((⟨-, rfl⟩ | ⟨-, rfl⟩) | ⟨-, rfl⟩) | ⟨-, rfl⟩
  · simp [MetNet.nwpPeriodsDP, sliceT0Args_getContiguous, sliceT0Args_fork,
      sliceT0Args_nwpBase]
  · simp [MetNet.satPeriodsDP, sliceT0Args_getContiguous, sliceT0Args_fork,
      sliceT0Args_satBase]
  · simp [MetNet.hrvPeriodsDP, sliceT0Args_getContiguous, sliceT0Args_fork,
      sliceT0Args_hrvBase]
  · simp [MetNet.pvPeriodsDP, sliceT0Args_getContiguous, sliceT0Args_fork,
      sliceT0Args_pvBase]

theorem sliceT0Args_t0DP (c : Configuration) (g0 : PVFilesGroup) :
    sliceT0Args (MetNet.t0DP c g0) = [] := by
  have hsec : ((MetNet.secondaryDPs c g0).map sliceT0Args).flatten = [] := by
    rw [List.flatten_eq_nil_iff]
    intro l hl
    obtain ⟨d, hd, rfl⟩ := List.mem_map.mp hl
    exact sliceT0Args_secondary_nil c g0 d hd
  simp [MetNet.t0DP, MetNet.gspT0SelDP, MetNet.overlapDP, MetNet.gspPeriodsDP,
    sliceT0Args_selectT0Time, sliceT0Args_selectTimePeriods, sliceT0Args_fork,
    sliceT0Args_overlap, sliceT0Args_getContiguous, sliceT0Args_gspBase, hsec]

theorem sliceT0Args_location (c : Configuration) :
    sliceT0Args (MetNet.locationDP c) = [] := by
  simp [MetNet.locationDP, MetNet.gspDropDP, sliceT0Args_locationPicker,
    sliceT0Args_fork, sliceT0Args_dropGSP, sliceT0Args_openGSP]

theorem sliceT0Args_gspSlice (c : Configuration) (g0 : PVFilesGroup) :
    sliceT0Args (MetNet.gspSliceDP c g0) = [DP.fork 5 0 (MetNet.t0DP c g0)] := by
  simp [MetNet.gspSliceDP, sliceT0Args_selectTimeSlice, sliceT0Args_fork,
    sliceT0Args_gspBase, sliceT0Args_t0DP]

theorem sliceT0Args_nwpSlice (c : Configuration) (g0 : PVFilesGroup) :
    sliceT0Args (MetNet.nwpSliceDP c g0) = [DP.fork 5 1 (MetNet.t0DP c g0)] := by
  simp [MetNet.nwpSliceDP, sliceT0Args_convert, sliceT0Args_fork,
    sliceT0Args_nwpBase, sliceT0Args_t0DP]

theorem sliceT0Args_satSlice (c : Configuration) (g0 : PVFilesGroup) :
    sliceT0Args (MetNet.satSliceDP c g0) = [DP.fork 5 2 (MetNet.t0DP c g0)] := by
  simp [MetNet.satSliceDP, sliceT0Args_selectTimeSlice, sliceT0Args_fork,
    sliceT0Args_satBase, sliceT0Args_t0DP]

theorem sliceT0Args_hrvSlice (c : Configuration) (g0 : PVFilesGroup) :
    sliceT0Args (MetNet.hrvSliceDP c g0) = [DP.fork 5 3 (MetNet.t0DP c g0)] := by
  simp [MetNet.hrvSliceDP, sliceT0Args_selectTimeSlice, sliceT0Args_fork,
    sliceT0Args_hrvBase, sliceT0Args_t0DP]

theorem sliceT0Args_pvSlice (c : Configuration) (g0 : PVFilesGroup) :
    sliceT0Args (MetNet.pvSliceDP c g0) = [DP.fork 5 4 (MetNet.t0DP c g0)] := by
  simp [MetNet.pvSliceDP, sliceT0Args_selectTimeSlice, sliceT0Args_fork,
    sliceT0Args_pvBase, sliceT0Args_t0DP]

theorem sliceT0Args_nwpNorm (c : Configuration) (g0 : PVFilesGroup) :
    sliceT0Args (MetNet.nwpNormDP c g0) = [DP.fork 5 1 (MetNet.t0DP c g0)] := by
  simp [MetNet.nwpNormDP, sliceT0Args_normalizeStats, sliceT0Args_nwpSlice]

theorem sliceT0Args_satNorm (c : Configuration) (g0 : PVFilesGroup) :
    sliceT0Args (MetNet.satNormDP c g0) = [DP.fork 5 2 (MetNet.t0DP c g0)] := by
  simp [MetNet.satNormDP, sliceT0Args_normalizeStats, sliceT0Args_satSlice]

theorem sliceT0Args_hrvNorm (c : Configuration) (g0 : PVFilesGroup) :
    sliceT0Args (MetNet.hrvNormDP c g0) = [DP.fork 5 3 (MetNet.t0DP c g0)] := by
  simp [MetNet.hrvNormDP, sliceT0Args_normalizeStats, sliceT0Args_hrvSlice]

theorem sliceT0Args_nwpFinal (c : Configuration) (g0 : PVFilesGroup) :
    sliceT0Args (MetNet.nwpFinalDP c g0) = [DP.fork 5 1 (MetNet.t0DP c g0)] := by
  unfold MetNet.nwpFinalDP
  split <;> simp [sliceT0Args_fork, sliceT0Args_nwpNorm]

theorem sliceT0Args_satFinal (c : Configuration) (g0 : PVFilesGroup) :
    sliceT0Args (MetNet.satFinalDP c g0) = [DP.fork 5 2 (MetNet.t0DP c g0)] := by
  unfold MetNet.satFinalDP
  split <;> simp [sliceT0Args_fork, sliceT0Args_satNorm]

theorem sliceT0Args_hrvFinal (c : Configuration) (g0 : PVFilesGroup) :
    sliceT0Args (MetNet.hrvFinalDP c g0) = [DP.fork 5 3 (MetNet.t0DP c g0)] := by
  unfold MetNet.hrvFinalDP
  split <;> simp [sliceT0Args_fork, sliceT0Args_hrvNorm]

theorem sliceT0Args_image (c : Configuration) (g0 : PVFilesGroup) {im : DP}
    (h : MetNet.imageDP c g0 = some im) :
    ∃ i, i < 5 ∧ sliceT0Args im = [DP.fork 5 i (MetNet.t0DP c g0)] := by
  unfold MetNet.imageDP at h
  split at h
  · cases h
    exact ⟨2, by omega, by simp [sliceT0Args_fork, sliceT0Args_satNorm]⟩
  · split at h
    · cases h
      exact ⟨3, by omega, by simp [sliceT0Args_fork, sliceT0Args_hrvNorm]⟩
    · split at h
      · cases h
        exact ⟨1, by omega, by simp [sliceT0Args_fork, sliceT0Args_nwpNorm]⟩
      · cases h

/-- Shape of a successful pipeline build: the first PV files group
exists, and the result is the assembled tree — with the PV modality
present exactly when PV is active (in which case an image pipe exists). -/
theorem metnet_ok_elim {c : Configuration} {mode : String} {p : DP}
    (h : metnet_national_datapipe c mode = .ok p) :
    ∃ g0, c.input_data.pv.pv_files_groups.head? = some g0 ∧
      ((MetNet.use_pv g0 = false ∧ p = MetNet.assembleDP c g0 [] mode) ∨
       (MetNet.use_pv g0 = true ∧ ∃ im, MetNet.imageDP c g0 = some im ∧
         p = MetNet.assembleDP c g0 [MetNet.pvImageDP c g0 im] mode)) := by
  unfold metnet_national_datapipe at h
  rcases hh : c.input_data.pv.pv_files_groups.head? with - | g0 <;> rw [hh] at h
  · simp [Bind.bind, Except.bind] at h
  · refine ⟨g0, rfl, ?_⟩
    cases hp : MetNet.use_pv g0
    · simp [hp, Bind.bind, Except.bind] at h
      exact Or.inl ⟨rfl, h.symm⟩
    · rcases him : MetNet.imageDP c g0 with - | im <;>
        simp [hp, him, Bind.bind, Except.bind] at h
      exact Or.inr ⟨rfl, im, rfl, h.symm⟩

theorem subDP_assemble_gspSlice {c : Configuration} {g0 : PVFilesGroup}
    {pvm : List DP} {mode : String} {a : DP} (h : SubDP a (MetNet.gspSliceDP c g0)) :
    SubDP a (MetNet.assembleDP c g0 pvm mode) := by
  unfold MetNet.assembleDP
  exact .zipR h

theorem subDP_assemble_modality {c : Configuration} {g0 : PVFilesGroup}
    {pvm : List DP} {mode : String} {a m : DP}
    (hm : m ∈ MetNet.modalitiesDP c g0 pvm) (h : SubDP a m) :
    SubDP a (MetNet.assembleDP c g0 pvm mode) := by
  unfold MetNet.assembleDP
  apply SubDP.zipL
  split
  · exact .header (.metnetModality hm h)
  · split
    · exact .header (.metnetModality hm h)
    · exact .metnetModality hm h

theorem mem_modalities_nwp {c : Configuration} {g0 : PVFilesGroup} {pvm : List DP}
    (hn : MetNet.use_nwp c = true) :
    MetNet.nwpFinalDP c g0 ∈ MetNet.modalitiesDP c g0 pvm := by
  unfold MetNet.modalitiesDP
  simp [hn]

theorem mem_modalities_sat {c : Configuration} {g0 : PVFilesGroup} {pvm : List DP}
    (hs : MetNet.use_sat c = true) :
    MetNet.satFinalDP c g0 ∈ MetNet.modalitiesDP c g0 pvm := by
  unfold MetNet.modalitiesDP
  simp [hs]

theorem mem_modalities_hrv {c : Configuration} {g0 : PVFilesGroup} {pvm : List DP}
    (hh : MetNet.use_hrv c = true) :
    MetNet.hrvFinalDP c g0 ∈ MetNet.modalitiesDP c g0 pvm := by
  unfold MetNet.modalitiesDP
  simp [hh]

theorem mem_modalities_pvm {c : Configuration} {g0 : PVFilesGroup} {pvm : List DP}
    {m : DP} (hm : m ∈ pvm) : m ∈ MetNet.modalitiesDP c g0 pvm := by
  unfold MetNet.modalitiesDP
  simp [hm]

theorem subDP_nwpNorm_final {c : Configuration} {g0 : PVFilesGroup} :
    SubDP (MetNet.nwpNormDP c g0) (MetNet.nwpFinalDP c g0) := by
  unfold MetNet.nwpFinalDP
  split
  · exact .fork (.refl _)
  · exact .refl _

theorem subDP_satNorm_final {c : Configuration} {g0 : PVFilesGroup} :
    SubDP (MetNet.satNormDP c g0) (MetNet.satFinalDP c g0) := by
  unfold MetNet.satFinalDP
  split
  · exact .fork (.refl _)
  · exact .refl _

theorem subDP_hrvNorm_final {c : Configuration} {g0 : PVFilesGroup} :
    SubDP (MetNet.hrvNormDP c g0) (MetNet.hrvFinalDP c g0) := by
  unfold MetNet.hrvFinalDP
  split
  · exact .fork (.refl _)
  · exact .refl _

/-- Membership in `secondary_datapipes`, unfolded. -/
theorem mem_secondaryDPs {c : Configuration} {g0 : PVFilesGroup} {d : DP} :
    d ∈ MetNet.secondaryDPs c g0 ↔
      (MetNet.use_nwp c = true ∧ d = MetNet.nwpPeriodsDP c) ∨
      (MetNet.use_sat c = true ∧ d = MetNet.satPeriodsDP c) ∨
      (MetNet.use_hrv c = true ∧ d = MetNet.hrvPeriodsDP c) ∨
      (MetNet.use_pv g0 = true ∧ d = MetNet.pvPeriodsDP c g0) := by
  unfold MetNet.secondaryDPs
  cases MetNet.use_nwp c <;> cases MetNet.use_sat c <;>
    cases MetNet.use_hrv c <;> cases MetNet.use_pv g0 <;> simp

theorem nwpPeriods_ne_satPeriods (c c' : Configuration) :
    MetNet.nwpPeriodsDP c ≠ MetNet.satPeriodsDP c' := by
  simp [MetNet.nwpPeriodsDP, MetNet.satPeriodsDP]

theorem nwpPeriods_ne_hrvPeriods (c c' : Configuration) :
    MetNet.nwpPeriodsDP c ≠ MetNet.hrvPeriodsDP c' := by
  simp [MetNet.nwpPeriodsDP, MetNet.hrvPeriodsDP]

theorem nwpPeriods_ne_pvPeriods (c c' : Configuration) (g0 : PVFilesGroup) :
    MetNet.nwpPeriodsDP c ≠ MetNet.pvPeriodsDP c' g0 := by
  simp [MetNet.nwpPeriodsDP, MetNet.pvPeriodsDP]

theorem satPeriods_ne_pvPeriods (c c' : Configuration) (g0 : PVFilesGroup) :
    MetNet.satPeriodsDP c ≠ MetNet.pvPeriodsDP c' g0 := by
  simp [MetNet.satPeriodsDP, MetNet.pvPeriodsDP, MetNet.satBaseDP, MetNet.pvBaseDP]

theorem hrvPeriods_ne_pvPeriods (c c' : Configuration) (g0 : PVFilesGroup) :
    MetNet.hrvPeriodsDP c ≠ MetNet.pvPeriodsDP c' g0 := by
  simp [MetNet.hrvPeriodsDP, MetNet.pvPeriodsDP, MetNet.hrvBaseDP, MetNet.pvBaseDP]

/-- The satellite and HRV period pipes coincide only when the two
configured zarr paths coincide. -/
theorem satPeriods_eq_hrvPeriods_path {c : Configuration}
    (h : MetNet.satPeriodsDP c = MetNet.hrvPeriodsDP c) :
    c.input_data.satellite.satellite_zarr_path =
      c.input_data.hrvsatellite.hrvsatellite_zarr_path := by
  simp [MetNet.satPeriodsDP, MetNet.hrvPeriodsDP, MetNet.satBaseDP,
    MetNet.hrvBaseDP] at h
  exact h.2

/-- On a sorted axis with at least one coordinate at or before `x`,
`lastLE` returns exactly the most recent coordinate at or before `x`. -/
theorem lastLE_spec : ∀ {l : List Nat}, l.Sorted (· ≤ ·) → ∀ {x : Nat},
    (∃ a ∈ l, a ≤ x) →
    ∃ m, lastLE l x = some m ∧ m ∈ l ∧ m ≤ x ∧ ∀ u ∈ l, u ≤ x → u ≤ m := by
  intro l hl
  induction l with
  | nil => rintro x ⟨a, ha, -⟩; cases ha
  | cons a l ih =>
    intro x hex
    by_cases hlx : ∃ b ∈ l, b ≤ x
    · obtain ⟨m, hm1, hm2, hm3, hm4⟩ := ih (List.Sorted.of_cons hl) hlx
      refine ⟨m, ?_, List.mem_cons_of_mem _ hm2, hm3, ?_⟩
      · unfold lastLE at hm1 ⊢
        rcases hf : l.filter (fun u => decide (u ≤ x)) with - | ⟨b, f⟩
        · rw [hf] at hm1; cases hm1
        · rw [hf] at hm1
          by_cases hax : a ≤ x
          · rw [List.filter_cons_of_pos (by simpa using hax), hf,
              List.getLast?_cons_cons]
            exact hm1
          · rw [List.filter_cons_of_neg (by simpa using hax), hf]
            exact hm1
      · intro u hu hux
        rcases List.mem_cons.mp hu with rfl | hu
        · exact List.rel_of_sorted_cons hl _ hm2
        · exact hm4 u hu hux
    · obtain ⟨b, hb, hbx⟩ := hex
      have hba : b = a := by
        rcases List.mem_cons.mp hb with rfl | hb
        · rfl
        · exact absurd ⟨b, hb, hbx⟩ hlx
      subst hba
      have hfe : l.filter (fun u => decide (u ≤ x)) = [] := by
        rw [List.filter_eq_nil_iff]
        intro c hc
        simpa using fun h => hlx ⟨c, hc, h⟩
      refine ⟨b, ?_, List.mem_cons_self _ _, hbx, ?_⟩
      · unfold lastLE
        rw [List.filter_cons_of_pos (by simpa using hbx), hfe]
        rfl
      · intro u hu hux
        rcases List.mem_cons.mp hu with rfl | hu
        · exact le_rfl
        · exact absurd ⟨u, hu, hux⟩ hlx

/-- Prepending the extra `0` coordinate produced by `concatStep0` does
not change which coordinate forward-fill copies from, as long as some
original coordinate lies at or before `x`. -/
theorem lastLE_cons_zero {l : List Nat} {x m : Nat} (h : lastLE l x = some m) :
    lastLE (0 :: l) x = some m := by
  unfold lastLE at h ⊢
  rw [List.filter_cons_of_pos (by simp)]
  rcases hf : l.filter (fun u => decide (u ≤ x)) with - | ⟨b, f⟩
  · rw [hf] at h; cases h
  · rw [hf] at h
    rw [List.getLast?_cons_cons]
    exact h

/-- C1: for every input dataset, every padded grid point of the array
returned by `open_gfs` that has a prior available sample on each axis
holds exactly the value of the most recent prior available sample —
forward-fill on both the issuance-time axis and the lead-time axis,
never numeric interpolation. -/
theorem open_gfs_forward_fill (g : GfsGrid) (t s : Nat)
    (hinit : g.initTimes.Sorted (· ≤ ·)) (hsteps : g.steps.Sorted (· ≤ ·))
    (ht : ∃ a ∈ g.initTimes, a ≤ t) (hs : ∃ a ∈ g.steps, a ≤ s) :
    ∃ t' ∈ g.initTimes, ∃ s' ∈ g.steps,
      t' ≤ t ∧ (∀ u ∈ g.initTimes, u ≤ t → u ≤ t') ∧
      s' ≤ s ∧ (∀ u ∈ g.steps, u ≤ s → u ≤ s') ∧
      (open_gfs g).val t s = g.val t' s' := by
  obtain ⟨t', htl, htm, htle, htmax⟩ := lastLE_spec hinit ht
  obtain ⟨s', hsl, hsm, hsle, hsmax⟩ := lastLE_spec hsteps hs
  refine ⟨t', htm, s', hsm, htle, htmax, hsle, hsmax, ?_⟩
  show (resamplePadStep (resamplePadInit (concatStep0 g))).val t s = _
  simp only [resamplePadStep, resamplePadInit, concatStep0]
  rw [lastLE_cons_zero hsl, htl]
  by_cases hz : s' = 0
  · subst hz
    simp [interpAt, hsm]
  · simp [hz]

/-- A concrete GFS grid: issuances at hours 0 and 6, lead times 0 and
3 hours. -/
def gfsWitnessGrid : GfsGrid :=
  { initTimes := [0, 6]
    steps := [0, 3]
    val := fun t s => some ((t : ℚ) * 100 + (s : ℚ)) }

/-- Witness for C1 at the padded grid point `(7, 5)` of the concrete
grid: the forward-filled value is the sample of issuance 6, lead time 3. -/
theorem open_gfs_forward_fill_witness :
    gfsWitnessGrid.initTimes.Sorted (· ≤ ·) ∧
    gfsWitnessGrid.steps.Sorted (· ≤ ·) ∧
    (∃ a ∈ gfsWitnessGrid.initTimes, a ≤ 7) ∧
    (∃ a ∈ gfsWitnessGrid.steps, a ≤ 5) ∧
    (∃ t' ∈ gfsWitnessGrid.initTimes, ∃ s' ∈ gfsWitnessGrid.steps,
      t' ≤ 7 ∧ (∀ u ∈ gfsWitnessGrid.initTimes, u ≤ 7 → u ≤ t') ∧
      s' ≤ 5 ∧ (∀ u ∈ gfsWitnessGrid.steps, u ≤ 5 → u ≤ s') ∧
      (open_gfs gfsWitnessGrid).val 7 5 = gfsWitnessGrid.val t' s') :=
  ⟨by decide, by decide, by decide, by decide,
   open_gfs_forward_fill gfsWitnessGrid 7 5 (by decide) (by decide)
     (by decide) (by decide)⟩

/-- C5 counterexample: at a store that cannot be opened, `open_gfs`
fails with the underlying array-library error, not with
`SourceUnavailable`: the claim "open_gfs raises SourceUnavailable when
the zarr store at the given path cannot be opened" is false. -/
theorem open_gfs_error_not_sourceUnavailable :
    open_gfs_at (fun p => .error (.storeNotFound p)) "gfs.zarr" =
      .error (.underlying (.storeNotFound "gfs.zarr")) ∧
    ∀ p, open_gfs_at (fun q => .error (.storeNotFound q)) "gfs.zarr" ≠
      .error (.sourceUnavailable p) := by
  constructor
  · simp [open_gfs_at]
  · intro p h
    simp [open_gfs_at] at h

/-- C5 amended: `open_gfs` performs no error wrapping at all — when the
zarr store at the given path cannot be opened, the error of the
underlying array library propagates unchanged (no `SourceUnavailable`
class exists in the code). -/
theorem open_gfs_propagates_underlying_error
    (stores : String → Except ZarrError GfsGrid) (zarr_path : String)
    (e : ZarrError) (h : stores zarr_path = .error e) :
    open_gfs_at stores zarr_path = .error (.underlying e) := by
  simp [open_gfs_at, h]

/-- Witness for the amended C5 at a concrete failing store. -/
theorem open_gfs_propagates_underlying_error_witness :
    open_gfs_at (fun _ => .error (.corruptStore "nwp.zarr")) "nwp.zarr" =
      .error (.underlying (.corruptStore "nwp.zarr")) :=
  open_gfs_propagates_underlying_error _ "nwp.zarr" _ rfl

/-- C8: the normalization statistics are keyed by source type and then by
channel name (`NWP_MEANS`/`NWP_STDS` map `"gfs"` to the GFS tables), and
each of the five channels emitted by `open_gfs` — `dlwrf`, `t`, `u`,
`v`, `prate` — has both a mean entry and a std entry in the GFS tables. -/
theorem gfs_stats_total_on_loader_channels :
    nwpStatGet NWP_MEANS "gfs" = .ok GFS_MEAN ∧
    nwpStatGet NWP_STDS "gfs" = .ok GFS_STD ∧
    (["dlwrf", "t", "u", "v", "prate"].all
      (fun c => (GFS_MEAN.lookup c).isSome && (GFS_STD.lookup c).isSome)) = true := by
  refine ⟨rfl, rfl, ?_⟩
  decide

/-- C9: iterating `SelectPVSystemsOnCapacityIterDataPipe` yields each
element of the source stream unchanged and in the same order, for every
source stream and every choice of capacity bounds: the stage is the
identity. -/
theorem selectPVSystemsOnCapacity_id {α : Type}
    (minCapacityWatts maxCapacityWatts : ℚ) (source : List α) :
    selectPVSystemsOnCapacity minCapacityWatts maxCapacityWatts source = source := by
  induction source with
  | nil => rfl
  | cons x xs ih => simpa [selectPVSystemsOnCapacity] using ih

/-- C10: indexing an `NWPStatDict` returns the stored value exactly when
the key is present; when the key is absent it raises the
"not yet available" `KeyError` exactly when the key is a known NWP
provider, and a plain `KeyError` carrying the key for every other key.
Stated for the three dictionaries the module builds this way
(`NWP_MEANS`, `NWP_STDS`, `NWP_VARIABLE_NAMES`). -/
theorem nwpStatDict_getitem_cases (key : String) :
    (∀ v, NWP_MEANS.lookup key = some v → nwpStatGet NWP_MEANS key = .ok v) ∧
    (∀ v, NWP_STDS.lookup key = some v → nwpStatGet NWP_STDS key = .ok v) ∧
    (∀ v, NWP_VARIABLE_NAMES.lookup key = some v →
      nwpStatGet NWP_VARIABLE_NAMES key = .ok v) ∧
    (NWP_MEANS.lookup key = none → key ∈ NWP_PROVIDERS →
      (nwpStatGet NWP_MEANS key =
        .error (.notYetAvailable
          ("Values for " ++ key ++ " not yet available in ocf-datapipes")) ∧
       nwpStatGet NWP_STDS key =
        .error (.notYetAvailable
          ("Values for " ++ key ++ " not yet available in ocf-datapipes")) ∧
       nwpStatGet NWP_VARIABLE_NAMES key =
        .error (.notYetAvailable
          ("Values for " ++ key ++ " not yet available in ocf-datapipes")))) ∧
    (NWP_MEANS.lookup key = none → key ∉ NWP_PROVIDERS →
      (nwpStatGet NWP_MEANS key = .error (.plain key) ∧
       nwpStatGet NWP_STDS key = .error (.plain key) ∧
       nwpStatGet NWP_VARIABLE_NAMES key = .error (.plain key))) := by
  by_cases h1 : key = "ukv"
  · subst h1
    refine ⟨?_, ?_, ?_, ?_, ?_⟩ <;>
      simp [nwpStatGet, NWP_MEANS, NWP_STDS, NWP_VARIABLE_NAMES, List.lookup]
  by_cases h2 : key = "gfs"
  · subst h2
    refine ⟨?_, ?_, ?_, ?_, ?_⟩ <;>
      simp [nwpStatGet, NWP_MEANS, NWP_STDS, NWP_VARIABLE_NAMES, List.lookup]
  have hb1 : (key == "ukv") = false := beq_eq_false_iff_ne.mpr h1
  have hb2 : (key == "gfs") = false := beq_eq_false_iff_ne.mpr h2
  have hm : NWP_MEANS.lookup key = none := by
    simp [NWP_MEANS, List.lookup, hb1, hb2]
  have hs : NWP_STDS.lookup key = none := by
    simp [NWP_STDS, List.lookup, hb1, hb2]
  have hv : NWP_VARIABLE_NAMES.lookup key = none := by
    simp [NWP_VARIABLE_NAMES, List.lookup, hb1, hb2]
  refine ⟨?_, ?_, ?_, ?_, ?_⟩
  · intro v h; rw [hm] at h; cases h
  · intro v h; rw [hs] at h; cases h
  · intro v h; rw [hv] at h; cases h
  · intro _ hmem
    refine ⟨?_, ?_, ?_⟩ <;> simp [nwpStatGet, hm, hs, hv, hmem]
  · intro _ hmem
    refine ⟨?_, ?_, ?_⟩ <;> simp [nwpStatGet, hm, hs, hv, hmem]

/-- Witness for C10 at concrete keys: `"ukv"` is present in `NWP_MEANS`
and returns the stored table, `"icon-eu"` is an absent known provider
and raises the "not yet available" error, and `"foo"` raises a plain
`KeyError`. -/
theorem nwpStatDict_getitem_cases_witness :
    nwpStatGet NWP_MEANS "ukv" = .ok UKV_MEAN ∧
    nwpStatGet NWP_MEANS "icon-eu" =
      .error (.notYetAvailable "Values for icon-eu not yet available in ocf-datapipes") ∧
    nwpStatGet NWP_MEANS "foo" = .error (.plain "foo") :=
  ⟨(nwpStatDict_getitem_cases "ukv").1 UKV_MEAN rfl,
   by
    have h := ((nwpStatDict_getitem_cases "icon-eu").2.2.2.1 (by decide) (by decide)).1
    simpa using h,
   ((nwpStatDict_getitem_cases "foo").2.2.2.2 (by decide) (by decide)).1⟩

/-- C2 counterexample: in the pipeline built from a configuration with
every modality active, the GSP stream's normalization is applied
strictly upstream of (before) the GSP slice extraction, and not after
it — so the claim that normalization of every source happens after its
slice extraction is false on the code. -/
theorem gsp_normalized_before_slice :
    metnet_national_datapipe exampleConfig "train" = .ok exampleDP ∧
    SubDP (MetNet.gspSliceDP exampleConfig examplePVGroup) exampleDP ∧
    SubDP (MetNet.gspNormDP exampleConfig)
      (MetNet.gspSliceDP exampleConfig examplePVGroup) ∧
    ¬ SubDP (MetNet.gspSliceDP exampleConfig examplePVGroup)
        (MetNet.gspNormDP exampleConfig) := by
  refine ⟨rfl, ?_, ?_, ?_⟩
  · exact subDP_assemble_gspSlice (.refl _)
  · exact .sliceSrc (.fork (.addT0 (.refl _)))
  · intro hsub
    cases hsub with
    | normalizeFn h =>
      cases h with
      | fork h =>
        cases h with
        | dropGSP h => cases h

/-- C2 (amended): the national pipeline applies open →
contiguous-period finding → joint intersection → t0 selection → slice
extraction → normalization for the NWP, satellite, HRV and PV branches,
but the GSP stream is normalized immediately after opening — before its
period computation and slice extraction. -/
theorem metnet_stage_order (c : Configuration) (mode : String) (p : DP)
    (g0 : PVFilesGroup) (hg : c.input_data.pv.pv_files_groups.head? = some g0)
    (h : metnet_national_datapipe c mode = .ok p) : StageOrderProp c g0 p := by
  obtain ⟨g0', hg', hcase⟩ := metnet_ok_elim h
  rw [hg] at hg'
  injection hg' with e
  subst e
  have hGspNormPeriods : SubDP (MetNet.gspNormDP c) (MetNet.gspPeriodsDP c) :=
    .getContiguous (.fork (.addT0 (.refl _)))
  have hGspNormSlice : SubDP (MetNet.gspNormDP c) (MetNet.gspSliceDP c g0) :=
    .sliceSrc (.fork (.addT0 (.refl _)))
  have hGspPeriodsOverlap : SubDP (MetNet.gspPeriodsDP c) (MetNet.overlapDP c g0) :=
    .overlapPrimary (.refl _)
  have hOverlapT0 : SubDP (MetNet.overlapDP c g0) (MetNet.t0DP c g0) :=
    .selectT0 (.selectTimePeriodsPeriods (.fork (.refl _)))
  have hT0Gsp : SubDP (MetNet.t0DP c g0) (MetNet.gspSliceDP c g0) :=
    .sliceT0 (.fork (.refl _))
  have hnwp : ∀ pvm : List DP, MetNet.use_nwp c = true →
      SubDP (MetNet.nwpNormDP c g0) (MetNet.assembleDP c g0 pvm mode) :=
    fun _ hn => subDP_assemble_modality (mem_modalities_nwp hn) subDP_nwpNorm_final
  have hsat : ∀ pvm : List DP, MetNet.use_sat c = true →
      SubDP (MetNet.satNormDP c g0) (MetNet.assembleDP c g0 pvm mode) :=
    fun _ hs => subDP_assemble_modality (mem_modalities_sat hs) subDP_satNorm_final
  have hhrv : ∀ pvm : List DP, MetNet.use_hrv c = true →
      SubDP (MetNet.hrvNormDP c g0) (MetNet.assembleDP c g0 pvm mode) :=
    fun _ hh => subDP_assemble_modality (mem_modalities_hrv hh) subDP_hrvNorm_final
  rcases hcase with ⟨hpv, rfl⟩ | ⟨hpv, im, him, rfl⟩
  · refine ⟨hGspNormPeriods, hGspNormSlice, subDP_assemble_gspSlice (.refl _),
      hGspPeriodsOverlap, hOverlapT0, hT0Gsp, ?_, ?_, ?_, ?_⟩
    · intro hn
      exact ⟨.getContiguous (.fork (.addT0 (.refl _))),
        .overlapSecondary (mem_secondaryDPs.mpr (Or.inl ⟨hn, rfl⟩)) (.refl _),
        .convertT0 (.fork (.refl _)), rfl, hnwp [] hn⟩
    · intro hs
      exact ⟨.getContiguous (.fork (.addT0 (.refl _))),
        .overlapSecondary (mem_secondaryDPs.mpr (Or.inr (Or.inl ⟨hs, rfl⟩))) (.refl _),
        .sliceT0 (.fork (.refl _)), rfl, hsat [] hs⟩
    · intro hh
      exact ⟨.getContiguous (.fork (.addT0 (.refl _))),
        .overlapSecondary (mem_secondaryDPs.mpr (Or.inr (Or.inr (Or.inl ⟨hh, rfl⟩))))
          (.refl _),
        .sliceT0 (.fork (.refl _)), rfl, hhrv [] hh⟩
    · intro hp
      rw [hp] at hpv
      exact Bool.noConfusion hpv
  · refine ⟨hGspNormPeriods, hGspNormSlice, subDP_assemble_gspSlice (.refl _),
      hGspPeriodsOverlap, hOverlapT0, hT0Gsp, ?_, ?_, ?_, ?_⟩
    · intro hn
      exact ⟨.getContiguous (.fork (.addT0 (.refl _))),
        .overlapSecondary (mem_secondaryDPs.mpr (Or.inl ⟨hn, rfl⟩)) (.refl _),
        .convertT0 (.fork (.refl _)), rfl, hnwp _ hn⟩
    · intro hs
      exact ⟨.getContiguous (.fork (.addT0 (.refl _))),
        .overlapSecondary (mem_secondaryDPs.mpr (Or.inr (Or.inl ⟨hs, rfl⟩))) (.refl _),
        .sliceT0 (.fork (.refl _)), rfl, hsat _ hs⟩
    · intro hh
      exact ⟨.getContiguous (.fork (.addT0 (.refl _))),
        .overlapSecondary (mem_secondaryDPs.mpr (Or.inr (Or.inr (Or.inl ⟨hh, rfl⟩))))
          (.refl _),
        .sliceT0 (.fork (.refl _)), rfl, hhrv _ hh⟩
    · intro hp
      exact ⟨.getContiguous (.fork (.addT0 (.fork (.refl _)))),
        .overlapSecondary
          (mem_secondaryDPs.mpr (Or.inr (Or.inr (Or.inr ⟨hp, rfl⟩)))) (.refl _),
        .sliceT0 (.fork (.refl _)),
        subDP_assemble_modality (mem_modalities_pvm (List.mem_singleton.mpr rfl))
          (.pvImageSrc (.refl _))⟩

/-- Witness for the amended C2 at the all-modality configuration. -/
theorem metnet_stage_order_witness :
    exampleConfig.input_data.pv.pv_files_groups.head? = some examplePVGroup ∧
    metnet_national_datapipe exampleConfig "train" = .ok exampleDP ∧
    StageOrderProp exampleConfig examplePVGroup exampleDP :=
  ⟨rfl, rfl, metnet_stage_order exampleConfig "train" exampleDP examplePVGroup rfl rfl⟩

/-- The t0 arguments of all slice stages of an assembled pipeline: those
of the modalities plus the GSP slice's own. -/
theorem sliceT0Args_assemble (c : Configuration) (g0 : PVFilesGroup)
    (pvm : List DP) (mode : String) :
    sliceT0Args (MetNet.assembleDP c g0 pvm mode) =
      ((MetNet.modalitiesDP c g0 pvm).map sliceT0Args).flatten ++
        [DP.fork 5 0 (MetNet.t0DP c g0)] := by
  unfold MetNet.assembleDP
  simp only [apply_ite sliceT0Args, sliceT0Args_zip, sliceT0Args_header,
    sliceT0Args_preProcessMetNet, sliceT0Args_location, sliceT0Args_gspSlice,
    List.append_nil, ite_self]

/-- Membership in the modality list, unfolded. -/
theorem mem_modalitiesDP {c : Configuration} {g0 : PVFilesGroup} {pvm : List DP}
    {m : DP} :
    m ∈ MetNet.modalitiesDP c g0 pvm ↔
      (MetNet.use_nwp c = true ∧ m = MetNet.nwpFinalDP c g0) ∨
      (MetNet.use_hrv c = true ∧ m = MetNet.hrvFinalDP c g0) ∨
      (MetNet.use_sat c = true ∧ m = MetNet.satFinalDP c g0) ∨ m ∈ pvm := by
  unfold MetNet.modalitiesDP
  simp only [List.mem_append, mem_ite_nil, List.mem_singleton, or_assoc]

/-- Every t0 argument of an assembled pipeline is a fork of the single
t0 stage, given that the PV modality's arguments are. -/
theorem sliceT0Args_assemble_forks (c : Configuration) (g0 : PVFilesGroup)
    (pvm : List DP) (mode : String)
    (hpvm : ∀ m ∈ pvm, ∀ q ∈ sliceT0Args m,
      ∃ i, i < 5 ∧ q = DP.fork 5 i (MetNet.t0DP c g0)) :
    ∀ q ∈ sliceT0Args (MetNet.assembleDP c g0 pvm mode),
      ∃ i, i < 5 ∧ q = DP.fork 5 i (MetNet.t0DP c g0) := by
  intro q hq
  rw [sliceT0Args_assemble] at hq
  rcases List.mem_append.mp hq with hq | hq
  · rw [List.mem_flatten] at hq
    obtain ⟨l, hl, hql⟩ := hq
    obtain ⟨m, hm, rfl⟩ := List.mem_map.mp hl
    rcases mem_modalitiesDP.mp hm with ⟨-, rfl⟩ | ⟨-, rfl⟩ | ⟨-, rfl⟩ | hmp
    · rw [sliceT0Args_nwpFinal] at hql
      exact ⟨1, by omega, List.mem_singleton.mp hql⟩
    · rw [sliceT0Args_hrvFinal] at hql
      exact ⟨3, by omega, List.mem_singleton.mp hql⟩
    · rw [sliceT0Args_satFinal] at hql
      exact ⟨2, by omega, List.mem_singleton.mp hql⟩
    · exact hpvm m hmp q hql
  · exact ⟨0, by omega, List.mem_singleton.mp hq⟩

/-- C3: exactly one t0 stage is selected per example — every slice
extractor in the pipeline consumes a fork of the one `select_t0_time`
stage — and each active modality's slice stage is present and consumes
its fork of that stage. -/
theorem metnet_single_anchor (c : Configuration) (mode : String) (p : DP)
    (g0 : PVFilesGroup) (hg : c.input_data.pv.pv_files_groups.head? = some g0)
    (h : metnet_national_datapipe c mode = .ok p) : SingleAnchorProp c g0 p := by
  obtain ⟨g0', hg', hcase⟩ := metnet_ok_elim h
  rw [hg] at hg'
  injection hg' with e
  subst e
  have hnwpS : ∀ pvm : List DP, MetNet.use_nwp c = true →
      SubDP (MetNet.nwpSliceDP c g0) (MetNet.assembleDP c g0 pvm mode) :=
    fun _ hn => subDP_assemble_modality (mem_modalities_nwp hn)
      (SubDP.trans (.normalizeStats (.refl _)) subDP_nwpNorm_final)
  have hsatS : ∀ pvm : List DP, MetNet.use_sat c = true →
      SubDP (MetNet.satSliceDP c g0) (MetNet.assembleDP c g0 pvm mode) :=
    fun _ hs => subDP_assemble_modality (mem_modalities_sat hs)
      (SubDP.trans (.normalizeStats (.refl _)) subDP_satNorm_final)
  have hhrvS : ∀ pvm : List DP, MetNet.use_hrv c = true →
      SubDP (MetNet.hrvSliceDP c g0) (MetNet.assembleDP c g0 pvm mode) :=
    fun _ hh => subDP_assemble_modality (mem_modalities_hrv hh)
      (SubDP.trans (.normalizeStats (.refl _)) subDP_hrvNorm_final)
  rcases hcase with ⟨hpv, rfl⟩ | ⟨hpv, im, him, rfl⟩
  · refine ⟨sliceT0Args_assemble_forks c g0 [] mode (by intro m hm; cases hm),
      rfl, sliceT0Args_gspSlice c g0, sliceT0Args_nwpSlice c g0,
      sliceT0Args_satSlice c g0, sliceT0Args_hrvSlice c g0,
      sliceT0Args_pvSlice c g0, subDP_assemble_gspSlice (.refl _),
      fun hn => hnwpS [] hn, fun hs => hsatS [] hs, fun hh => hhrvS [] hh, ?_⟩
    intro hp
    rw [hp] at hpv
    exact Bool.noConfusion hpv
  · refine ⟨sliceT0Args_assemble_forks c g0 _ mode ?_,
      rfl, sliceT0Args_gspSlice c g0, sliceT0Args_nwpSlice c g0,
      sliceT0Args_satSlice c g0, sliceT0Args_hrvSlice c g0,
      sliceT0Args_pvSlice c g0, subDP_assemble_gspSlice (.refl _),
      fun hn => hnwpS _ hn, fun hs => hsatS _ hs, fun hh => hhrvS _ hh,
      fun _ => subDP_assemble_modality (mem_modalities_pvm (List.mem_singleton.mpr rfl))
        (.pvImageSrc (.refl _))⟩
    intro m hm q hq
    rw [List.mem_singleton.mp hm] at hq
    unfold MetNet.pvImageDP at hq
    rw [sliceT0Args_createPVImage, sliceT0Args_pvSlice] at hq
    rcases List.mem_append.mp hq with hq | hq
    · exact ⟨4, by omega, List.mem_singleton.mp hq⟩
    · obtain ⟨j, hj, hjeq⟩ := sliceT0Args_image c g0 him
      rw [hjeq] at hq
      exact ⟨j, hj, List.mem_singleton.mp hq⟩

/-- Witness for C3 at the all-modality configuration. -/
theorem metnet_single_anchor_witness :
    exampleConfig.input_data.pv.pv_files_groups.head? = some examplePVGroup ∧
    metnet_national_datapipe exampleConfig "train" = .ok exampleDP ∧
    SingleAnchorProp exampleConfig examplePVGroup exampleDP :=
  ⟨rfl, rfl, metnet_single_anchor exampleConfig "train" exampleDP examplePVGroup rfl rfl⟩

/-- C4: the joint-period intersection of the national pipeline takes the
GSP period stream as primary (GSP always contributes) and, as
secondaries, exactly the period streams of the optional modalities
whose configured data path is a non-empty string. -/
theorem metnet_overlap_exactly_active (c : Configuration) (mode : String) (p : DP)
    (g0 : PVFilesGroup) (hg : c.input_data.pv.pv_files_groups.head? = some g0)
    (h : metnet_national_datapipe c mode = .ok p) : OverlapExactlyActive c g0 p := by
  obtain ⟨g0', hg', hcase⟩ := metnet_ok_elim h
  rw [hg] at hg'
  injection hg' with e
  subst e
  have hOv : ∀ (pvm : List DP),
      SubDP (MetNet.overlapDP c g0) (MetNet.assembleDP c g0 pvm mode) :=
    fun _ => subDP_assemble_gspSlice
      (.sliceT0 (.fork (.selectT0 (.selectTimePeriodsPeriods (.fork (.refl _))))))
  refine ⟨?_, rfl, ?_, ?_, ?_, ?_, ?_⟩
  · rcases hcase with ⟨-, rfl⟩ | ⟨-, -, -, rfl⟩ <;> exact hOv _
  · constructor
    · intro hmem
      rcases mem_secondaryDPs.mp hmem with ⟨hn, -⟩ | ⟨-, he⟩ | ⟨-, he⟩ | ⟨-, he⟩
      · simpa [MetNet.use_nwp] using hn
      · exact absurd he (nwpPeriods_ne_satPeriods c c)
      · exact absurd he (nwpPeriods_ne_hrvPeriods c c)
      · exact absurd he (nwpPeriods_ne_pvPeriods c c g0)
    · intro hne
      exact mem_secondaryDPs.mpr (Or.inl ⟨by simpa [MetNet.use_nwp], rfl⟩)
  · constructor
    · intro hmem
      rcases mem_secondaryDPs.mp hmem with ⟨-, he⟩ | ⟨hs, -⟩ | ⟨hh, he⟩ | ⟨-, he⟩
      · exact absurd he.symm (nwpPeriods_ne_satPeriods c c)
      · simpa [MetNet.use_sat] using hs
      · rw [satPeriods_eq_hrvPeriods_path he]
        simpa [MetNet.use_hrv] using hh
      · exact absurd he (satPeriods_ne_pvPeriods c c g0)
    · intro hne
      exact mem_secondaryDPs.mpr (Or.inr (Or.inl ⟨by simpa [MetNet.use_sat], rfl⟩))
  · constructor
    · intro hmem
      rcases mem_secondaryDPs.mp hmem with ⟨-, he⟩ | ⟨hs, he⟩ | ⟨hh, -⟩ | ⟨-, he⟩
      · exact absurd he.symm (nwpPeriods_ne_hrvPeriods c c)
      · rw [← satPeriods_eq_hrvPeriods_path he.symm]
        simpa [MetNet.use_sat] using hs
      · simpa [MetNet.use_hrv] using hh
      · exact absurd he (hrvPeriods_ne_pvPeriods c c g0)
    · intro hne
      exact mem_secondaryDPs.mpr (Or.inr (Or.inr (Or.inl ⟨by simpa [MetNet.use_hrv], rfl⟩)))
  · constructor
    · intro hmem
      rcases mem_secondaryDPs.mp hmem with ⟨-, he⟩ | ⟨-, he⟩ | ⟨-, he⟩ | ⟨hp, -⟩
      · exact absurd he.symm (nwpPeriods_ne_pvPeriods c c g0)
      · exact absurd he.symm (satPeriods_ne_pvPeriods c c g0)
      · exact absurd he.symm (hrvPeriods_ne_pvPeriods c c g0)
      · simpa [MetNet.use_pv] using hp
    · intro hne
      exact mem_secondaryDPs.mpr
        (Or.inr (Or.inr (Or.inr ⟨by simpa [MetNet.use_pv], rfl⟩)))
  · intro d hd
    rcases mem_secondaryDPs.mp hd with ⟨-, rfl⟩ | ⟨-, rfl⟩ | ⟨-, rfl⟩ | ⟨-, rfl⟩
    · exact Or.inl rfl
    · exact Or.inr (Or.inl rfl)
    · exact Or.inr (Or.inr (Or.inl rfl))
    · exact Or.inr (Or.inr (Or.inr rfl))

/-- Witness for C4 at the all-modality configuration. -/
theorem metnet_overlap_exactly_active_witness :
    exampleConfig.input_data.pv.pv_files_groups.head? = some examplePVGroup ∧
    metnet_national_datapipe exampleConfig "train" = .ok exampleDP ∧
    OverlapExactlyActive exampleConfig examplePVGroup exampleDP :=
  ⟨rfl, rfl,
   metnet_overlap_exactly_active exampleConfig "train" exampleDP examplePVGroup rfl rfl⟩

theorem validateCadence_error_of_invalid (n : String) (d : CadenceDescriptor)
    (h : InvalidCadence d) : ∃ e, validateCadence n d = .error e := by
  unfold validateCadence
  split
  · exact ⟨_, rfl⟩
  · split
    · exact ⟨_, rfl⟩
    · rename_i h1 h2
      exfalso
      push_neg at h1 h2
      rcases h with h | h | h | h | h
      · exact absurd h (not_lt.mpr h1.1)
      · exact absurd h (not_lt.mpr h1.2.1)
      · exact absurd h (not_lt.mpr h1.2.2)
      · exact h h2.1
      · exact h h2.2

theorem forM_validate_error {l : List (String × CadenceDescriptor)}
    (h : ∃ nd ∈ l, InvalidCadence nd.2) :
    ∃ e, l.forM (fun nd => validateCadence nd.1 nd.2) = .error e := by
  induction l with
  | nil =>
    obtain ⟨nd, hmem, -⟩ := h
    cases hmem
  | cons a l ih =>
    obtain ⟨nd, hmem, hinv⟩ := h
    rcases List.mem_cons.mp hmem with rfl | hmem
    · obtain ⟨e, he⟩ := validateCadence_error_of_invalid nd.1 nd.2 hinv
      exact ⟨e, by simp [List.forM_cons, he, Bind.bind, Except.bind]⟩
    · cases hv : validateCadence a.1 a.2 with
      | error e => exact ⟨e, by simp [List.forM_cons, hv, Bind.bind, Except.bind]⟩
      | ok u =>
        obtain ⟨e, he⟩ := ih ⟨nd, hmem, hinv⟩
        exact ⟨e, by simp [List.forM_cons, hv, he, Bind.bind, Except.bind]⟩

/-- C6: constructing the validated national pipeline rejects, with a
`ConfigurationError`, every configuration one of whose per-source
cadence descriptors has a negative duration or a history/forecast
duration that is not a whole multiple of the sample period. -/
theorem metnet_validated_rejects_invalid (c : Configuration) (mode : String)
    (h : ∃ nd ∈ cadenceDescriptors c, InvalidCadence nd.2) :
    ∃ e, metnet_national_datapipe_validated c mode = .error (.inl e) := by
  obtain ⟨e, he⟩ := forM_validate_error h
  exact ⟨e, by simp [metnet_national_datapipe_validated, validateConfiguration, he]⟩

/-- Witness for C6: a configuration with a negative GSP history is
rejected at construction. -/
theorem metnet_validated_rejects_invalid_witness :
    (∃ nd ∈ cadenceDescriptors badConfig, InvalidCadence nd.2) ∧
    ∃ e, metnet_national_datapipe_validated badConfig "train" = .error (.inl e) :=
  ⟨⟨("gsp", ⟨30, -30, 480⟩), by decide, by unfold InvalidCadence; decide⟩,
   metnet_validated_rejects_invalid badConfig "train"
     ⟨("gsp", ⟨30, -30, 480⟩), by decide, by unfold InvalidCadence; decide⟩⟩

/-- C7: the alignment run is a pure function of the injected seed and
the inputs — two runs with equal seeds, equal joint windows and equal
cadences produce identical anchor sequences and identical slice
targets. -/
theorem runAlignment_deterministic (seed₁ seed₂ : Nat)
    (ws₁ ws₂ : List JointWindow) (cads₁ cads₂ : List (Nat × Nat × Nat)) (n : Nat)
    (hseed : seed₁ = seed₂) (hws : ws₁ = ws₂) (hcads : cads₁ = cads₂) :
    runAlignment seed₁ ws₁ cads₁ n = runAlignment seed₂ ws₂ cads₂ n := by
  subst hseed
  subst hws
  subst hcads
  rfl

/-- Witness for C7 at a concrete seed, window set and cadence set. -/
theorem runAlignment_deterministic_witness :
    (42 : Nat) = 42 ∧ [JointWindow.mk 2 5] = [JointWindow.mk 2 5] ∧
    [((120 : Nat), (480 : Nat), (30 : Nat))] = [(120, 480, 30)] ∧
    runAlignment 42 [JointWindow.mk 2 5] [(120, 480, 30)] 3 =
      runAlignment 42 [JointWindow.mk 2 5] [(120, 480, 30)] 3 :=
  ⟨rfl, rfl, rfl,
   runAlignment_deterministic 42 42 [JointWindow.mk 2 5] [JointWindow.mk 2 5]
     [(120, 480, 30)] [(120, 480, 30)] 3 rfl rfl rfl⟩
